import Mathlib

/-!
Shallow embedding of the PineTrack Scheduling & Reschedule Engine
(backend/app: routers/schedule.py, routers/tasks.py,
services/task_conflict_service.py, services/reason_service.py).

Modelling conventions:
* Calendar dates are modelled as integer day numbers (`Int`); `date`
  arithmetic with `timedelta(days = n)` becomes integer addition, and
  `isoformat()` rendering becomes `toString`.  This is faithful because the
  Python code only compares, orders and shifts dates by whole days, and
  ISO rendering is injective.
* Python `str` values are Lean `String`s.  Nullable columns are `Option`.
  Where the code treats `None` and `""` alike via `or ""` /
  `_normalize_text`, titles and types are modelled as plain `String`
  (with `""` standing for a missing value).
* Python floats are modelled as exact decimals with two fractional
  digits (`Flt`, an `Int` count of hundredths).  The engine only adds,
  subtracts and compares sensor magnitudes, thresholds and rainfall
  totals, all specified to at most two decimals, where binary floats
  behave exactly like this decimal arithmetic.
* String helpers (`lower`, `strip`, `split("|")`, substring test,
  `"%.1f"`-style formatting) are implemented here over `List Char`,
  mirroring the Python semantics the code relies on.
-/

namespace PineTrack

/-! ### Decimal magnitudes -/

/-- A Python float value, as an exact count of hundredths. -/
structure Flt where
  centi : Int
  deriving Repr, DecidableEq

instance (n : Nat) : OfNat Flt n := ⟨⟨(n : Int) * 100⟩⟩

/-- Decimal literals such as `0.85`; exponents beyond two digits do not
occur in this code base. -/
instance : OfScientific Flt where
  ofScientific m b e :=
    if b then ⟨(m : Int) * 100 / (10 ^ e : Nat)⟩ else ⟨(m : Int) * (10 ^ e : Nat) * 100⟩

instance : Add Flt := ⟨fun a b => ⟨a.centi + b.centi⟩⟩
instance : Sub Flt := ⟨fun a b => ⟨a.centi - b.centi⟩⟩
instance : LE Flt := ⟨fun a b => a.centi ≤ b.centi⟩
instance : LT Flt := ⟨fun a b => a.centi < b.centi⟩

instance (a b : Flt) : Decidable (a ≤ b) := Int.decLe a.centi b.centi
instance (a b : Flt) : Decidable (a < b) := Int.decLt a.centi b.centi

/-! ### String helpers (Python `lower` / `strip` / `split` / `in`) -/

/-- Python whitespace characters stripped by `str.strip()` (the subset that
occurring in the data of this code base). -/
def isPySpace (c : Char) : Bool :=
  c = ' ' || c = '\t' || c = '\n' || c = '\r'

/-- Python `str.lower()`. -/
def lowerStr (s : String) : String :=
  ⟨s.data.map Char.toLower⟩

/-- Python `str.strip()`. -/
def stripStr (s : String) : String :=
  ⟨((s.data.dropWhile isPySpace).reverse.dropWhile isPySpace).reverse⟩

/-- Python `needle in hay` substring test. -/
def strIn (needle hay : String) : Bool :=
  (List.range (hay.data.length + 1)).any
    (fun i => needle.data.isPrefixOf (hay.data.drop i))

/-- Split a character list at every occurrence of `c` (Python
`str.split("|")`, which keeps empty chunks). -/
def splitCharAux (c : Char) : List Char → List Char → List (List Char)
  | [], acc => [acc.reverse]
  | x :: xs, acc =>
      if x = c then acc.reverse :: splitCharAux c xs []
      else splitCharAux c xs (x :: acc)

/-- Python `s.split("|")`. -/
def splitPipe (s : String) : List String :=
  (splitCharAux '|' s.data []).map (fun l => ⟨l⟩)

/-- Python `" | ".join(parts)`. -/
def joinSep : List String → String
  | [] => ""
  | [p] => p
  | p :: rest => p ++ " | " ++ joinSep rest

/-- Python `f"{x:.1f}"` for the nonnegative magnitudes the code prints
(rounding half up; Python float formatting agrees on the values that
occur in reasons). -/
def fmt1 (q : Flt) : String :=
  let n : Int := (q.centi + 5) / 10
  toString (n / 10) ++ "." ++ toString ((n % 10).natAbs)

/-- Python `f"{x:.2f}"` for confidences in `[0, 1]`. -/
def fmt2 (q : Flt) : String :=
  let n : Int := q.centi
  let frac := (n % 100).natAbs
  toString (n / 100) ++ "." ++ (if frac < 10 then "0" else "") ++ toString frac

/-- Predicate: `hay` contains `part` as a contiguous substring (used to state
"the reason string contains the rationale"). -/
def containsStr (hay part : String) : Prop :=
  ∃ l r : String, hay = l ++ part ++ r

/-! ### services/reason_service.py -/

/-- Python `INTERNAL_REASON_MARKERS`. -/
def INTERNAL_REASON_MARKERS : List String :=
  ["auto-generated from task template",
   "avoid fertiliser application near hormone application"]

/-- Predicate for the filter inside `strip_internal_reason`: it is nonempty and
matches no internal marker. -/
def partKept (p : String) : Bool :=
  !(INTERNAL_REASON_MARKERS.any (fun m => strIn m (lowerStr p))) && p ≠ ""

/-- Python `strip_internal_reason` (services/reason_service.py). -/
def stripInternalReason (reason : Option String) : Option String :=
  match reason with
  | none => none
  | some s =>
    if s = "" then none
    else
      let parts := (splitPipe s).map stripStr
      let cleaned := parts.filter partKept
      if cleaned = [] then none else some (joinSep cleaned)

/-- Python `merge_reasons` (services/reason_service.py). -/
def mergeReasons (existing addition : Option String) : Option String :=
  match stripInternalReason existing, stripInternalReason addition with
  | some a, some b => some (a ++ " | " ++ b)
  | some a, none => some a
  | none, some b => some b
  | none, none => none

/-! ### Data model: Task -/

/-- A row of the `tasks` table, restricted to the columns the engine reads
and writes.  Dates are day numbers, nullable columns are `Option`. -/
structure Task where
  id : String := ""
  plot_id : String := ""
  title : String := ""
  ttype : String := ""
  task_date : Option Int := none
  status : Option String := none
  reason : Option String := none
  original_date : Option Int := none
  proposed_date : Option Int := none
  buffer_days : Option Int := none
  reschedule_type : Option String := none
  reschedule_visible : Option Bool := none
  approval_state : Option String := none
  deriving Repr, DecidableEq

/-! ### services/task_conflict_service.py -/

def DEFAULT_HORMONE_BUFFER_DAYS : Int := 7

def PROCESSING_CUTOFF_TITLE : String := "processing into pineapple juice"

/-- Python `_normalize_text` (`str(value or "").strip().lower()`). -/
def normalizeText (s : String) : String := lowerStr (stripStr s)

/-- Python `_normalize_text` applied to a nullable value. -/
def normalizeTextOpt (s : Option String) : String := normalizeText (s.getD "")

/-- Python `is_processing_cutoff_task`. -/
def isProcessingCutoffTask (t : Task) : Bool :=
  strIn PROCESSING_CUTOFF_TITLE (normalizeText t.title)

/-- Python `is_hormone_task`. -/
def isHormoneTask (t : Task) : Bool :=
  strIn "hormone" (normalizeText t.title) || strIn "hormone" (normalizeText t.ttype)

/-- Python `is_fertiliser_task`. -/
def isFertiliserTask (t : Task) : Bool :=
  let kws := ["fertil", "foliar", "granular"]
  kws.any (fun k => strIn k (normalizeText t.title)) ||
    kws.any (fun k => strIn k (normalizeText t.ttype))

/-- Python `get_buffer_days` (task-specific override clamped at 0, else the
default of 7). -/
def getBufferDays (t : Task) : Int :=
  match t.buffer_days with
  | some r => max 0 r
  | none => DEFAULT_HORMONE_BUFFER_DAYS

/-- Python `get_processing_cutoff_date`: earliest date of a cutoff-titled task. -/
def getProcessingCutoffDate (tasks : List Task) : Option Int :=
  let cutoffDates := tasks.filterMap
    (fun t => if isProcessingCutoffTask t then t.task_date else none)
  cutoffDates.foldl (fun acc d =>
    match acc with
    | none => some d
    | some m => some (min m d)) none

/-- Python `build_hormone_windows`: `(date, buffer)` pairs for hormone tasks not
past the processing cutoff. -/
def buildHormoneWindows (tasks : List Task) : List (Int × Int) :=
  let cutoff := getProcessingCutoffDate tasks
  tasks.filterMap (fun t =>
    if !isHormoneTask t then none
    else match t.task_date with
      | none => none
      | some d =>
        match cutoff with
        | some c => if d > c then none else some (d, getBufferDays t)
        | none => some (d, getBufferDays t))

/-- Python `_is_blocked`. -/
def isBlocked (candidate : Int) (windows : List (Int × Int)) : Bool :=
  windows.any (fun w => w.1 ≤ candidate && candidate ≤ w.1 + w.2)

/-- Python `_latest_block_end`. -/
def latestBlockEnd (candidate : Int) (windows : List (Int × Int)) : Option Int :=
  let ends := (windows.filter
    (fun w => w.1 ≤ candidate && candidate ≤ w.1 + w.2)).map (fun w => w.1 + w.2)
  ends.foldl (fun acc e =>
    match acc with
    | none => some e
    | some m => some (max m e)) none

/-- Python `cutoff_date and candidate > cutoff_date` (a `date` is always
truthy, so this is just the comparison when a cutoff exists). -/
def pastCutoff (cutoff : Option Int) (d : Int) : Bool :=
  match cutoff with
  | some c => decide (d > c)
  | none => false

/-- Body of the bounded scan in `find_next_available_date`. -/
def findNextAvailableAux (windows : List (Int × Int)) (cutoff : Option Int) :
    Nat → Int → Int
  | 0, candidate => candidate
  | n + 1, candidate =>
      if pastCutoff cutoff candidate then candidate
      else if !isBlocked candidate windows then candidate
      else findNextAvailableAux windows cutoff n (candidate + 1)

/-- Python `find_next_available_date` with its default 120-day lookahead. -/
def findNextAvailableDate (startDate : Int) (windows : List (Int × Int))
    (cutoff : Option Int) : Int :=
  findNextAvailableAux windows cutoff 120 startDate

/-- One iteration of the loop in `apply_fertiliser_conflict_resolution`: the
(possibly mutated) task together with whether it was appended to
`updated`. -/
def resolveFertiliserTask (windows : List (Int × Int)) (cutoff : Option Int)
    (reason : String) (shiftTaskDate createProposal : Bool)
    (rtype : Option String) (rvisible : Option Bool) (t : Task) : Task × Bool :=
  if !isFertiliserTask t then (t, false)
  else match t.task_date with
    | none => (t, false)
    | some td =>
      if pastCutoff cutoff td then (t, false)
      else if !isBlocked td windows then (t, false)
      else match latestBlockEnd td windows with
        | none => (t, false)
        | some latestEnd =>
          let newDate := findNextAvailableDate (latestEnd + 1) windows cutoff
          let t1 :=
            if createProposal then
              { t with
                original_date := match t.original_date with
                  | some o => some o
                  | none => t.task_date,
                proposed_date := some newDate,
                status :=
                  if normalizeTextOpt t.status = "" ∨
                      normalizeTextOpt t.status = "proceed" then some "Pending"
                  else t.status,
                reason := match stripInternalReason t.reason with
                  | some existing => some (existing ++ " | " ++ reason)
                  | none => some reason }
            else
              { t with
                reschedule_type := match rtype with
                  | some r => some r
                  | none => t.reschedule_type,
                reschedule_visible := match rvisible with
                  | some v => some v
                  | none => t.reschedule_visible }
          let t2 := if shiftTaskDate then { t1 with task_date := some newDate } else t1
          (t2, true)

/-- Python `apply_fertiliser_conflict_resolution`: returns the adjusted
`tasks_to_adjust` list together with the sublist of updated tasks (the
Python function mutates the dicts in place and returns the updated ones;
windows and cutoff are computed from `all_tasks` before the loop). -/
def applyFertiliserConflictResolution (tasksToAdjust allTasks : List Task)
    (reason : String) (shiftTaskDate : Bool) (createProposal : Bool := true)
    (rtype : Option String := none) (rvisible : Option Bool := none) :
    List Task × List Task :=
  let windows := buildHormoneWindows allTasks
  let cutoff := getProcessingCutoffDate allTasks
  let results := tasksToAdjust.map
    (resolveFertiliserTask windows cutoff reason shiftTaskDate createProposal rtype rvisible)
  (results.map Prod.fst, (results.filter Prod.snd).map Prod.fst)

/-! ### routers/schedule.py: rain calendar lookup and Safe-Date Finder -/

/-- A rain calendar: ISO date → total daily rainfall (mm).  Modelled as an
association list; `dict.get(d, 0.0)` is `calGet`. -/
def RainCal := List (Int × Flt)

/-- Python `float(calendar.get(key, 0.0) or 0.0)` (missing dates read as 0.0). -/
def calGet (cal : RainCal) (d : Int) : Flt :=
  match List.lookup d cal with
  | some v => v
  | none => 0

/-- Python `_get_rain_metrics`: rain on the target day and total over the next
three days. -/
def getRainMetrics (cal : RainCal) (baseDate : Int) : Flt × Flt :=
  (calGet cal baseDate,
   calGet cal (baseDate + 1) + calGet cal (baseDate + 2) + calGet cal (baseDate + 3))

/-- Python `_is_rain_sensitive` (keyword match on the lowercased title). -/
def isRainSensitive (taskTitle : String) : Bool :=
  let title := lowerStr taskTitle
  ["fertil", "spray", "hormone", "foliar", "pesticide", "insecticide",
   "flower induction"].any (fun k => strIn k title)

/-- The scan of `_find_next_safe_date` over offsets
`1 … max_lookahead_days`; `none` when no candidate passes.  The two
`continue` guards reject a day with rain at or above the heavy limit, and
a day with rain at or above the soft limit when the task is
rain-sensitive (both limits are supplied as numbers at the only call
site, so the `is not None` guards in the source are always true here). -/
def findSafeAux (target : Int) (cal : RainCal) (rainMmMin rainMmHeavy : Flt)
    (taskTitle : String) : Nat → Nat → Option Int
  | _, 0 => none
  | off, rem + 1 =>
      let candidate := target + off
      let rain := calGet cal candidate
      if rain ≥ rainMmHeavy then
        findSafeAux target cal rainMmMin rainMmHeavy taskTitle (off + 1) rem
      else if rain ≥ rainMmMin ∧ isRainSensitive taskTitle then
        findSafeAux target cal rainMmMin rainMmHeavy taskTitle (off + 1) rem
      else some candidate

def SAFE_DAY_FALLBACK_REASON : String := "Fallback: no safe day found within window."

/-- Rationale attached to a found safe day. -/
def safeDayRationale (candidate : Int) : String :=
  "Rescheduled to next safe day (" ++ toString candidate ++ ") based on rain forecast."

/-- Python `_find_next_safe_date`. -/
def findNextSafeDate (targetDate : Int) (rescheduleDays : Int)
    (maxLookaheadDays : Nat) (cal : RainCal) (rainMmMin rainMmHeavy : Flt)
    (taskTitle : String) : Int × String :=
  match findSafeAux targetDate cal rainMmMin rainMmHeavy taskTitle 1 maxLookaheadDays with
  | some candidate => (candidate, safeDayRationale candidate)
  | none => (targetDate + rescheduleDays, SAFE_DAY_FALLBACK_REASON)

def MAX_LOOKAHEAD_DAYS : Nat := 7

def FERTILISER_HORMONE_CONFLICT_REASON : String :=
  "Avoid fertiliser application near hormone application (buffer 7 days)."

/-! ### routers/schedule.py: conflict adjustment of a proposed date -/

/-- Python `_fetch_plot_tasks_for_conflict_check`: tasks of the plot whose
(non-null) `task_date` lies in the closed range. -/
def fetchPlotTasksForConflictCheck (store : List Task) (plotId : String)
    (dateFrom dateTo : Int) : List Task :=
  store.filter (fun t =>
    t.plot_id = plotId &&
      (match t.task_date with
       | some d => dateFrom ≤ d && d ≤ dateTo
       | none => false))

/-- Python `_adjust_proposed_date_for_conflict`: returns
`(proposed_date, reason, status)` after routing the proposed date of a fertiliser
task through the Conflict Resolver in propose mode. -/
def adjustProposedDateForConflict (store : List Task) (plotId : String)
    (task : Task) (proposedDate : Option Int) :
    Option Int × Option String × Option String :=
  match proposedDate with
  | none => (proposedDate, stripInternalReason task.reason, task.status)
  | some candidate =>
    if !isFertiliserTask task then
      (proposedDate, stripInternalReason task.reason, task.status)
    else
      let dateFrom := candidate - DEFAULT_HORMONE_BUFFER_DAYS
      let dateTo := candidate + DEFAULT_HORMONE_BUFFER_DAYS
      let existingTasks := fetchPlotTasksForConflictCheck store plotId dateFrom dateTo
      let tempTask := { task with task_date := some candidate }
      let allTasks := existingTasks ++ [tempTask]
      let res := applyFertiliserConflictResolution [tempTask] allTasks
        FERTILISER_HORMONE_CONFLICT_REASON false
      match res.2 with
      | [] => (proposedDate, stripInternalReason task.reason, task.status)
      | _ =>
        let temp2 := res.1.headD tempTask
        (temp2.proposed_date, stripInternalReason temp2.reason, temp2.status)

/-! ### routers/schedule.py: threshold rules -/

/-- Threshold fields read by the rule loop of the evaluator (after the
payload/DB/default selection step, which is upstream of the claims).
`soil_moisture_min` and `waterlogging_hours` are carried by the payload
but never read by the rules. -/
structure Thresholds where
  soil_moisture_max : Option Flt := none
  soil_moisture_field_max : Option Flt := none
  temperature_min : Option Flt := none
  temperature_max : Option Flt := none
  rain_mm_min : Option Flt := none
  rain_mm_heavy : Option Flt := none
  deriving Repr, DecidableEq

/-- Python `if "soil_moisture_field_max" not in thresholds_used and
"soil_moisture_max" in thresholds_used: default it`. -/
def resolveFieldMax (th : Thresholds) : Thresholds :=
  match th.soil_moisture_field_max, th.soil_moisture_max with
  | none, some m => { th with soil_moisture_field_max := some m }
  | _, _ => th

def stopBuffer : Flt := 10

/-- The two reason accumulators of the per-task rule loop. -/
structure RuleOutcome where
  stopReasons : List String := []
  pendingReasons : List String := []
  deriving Repr, DecidableEq

def wateringStopReason (sm mmax delta : Flt) : String :=
  "Soil moisture " ++ fmt1 sm ++ "% exceeded configured max " ++ fmt1 mmax ++
    "% by " ++ fmt1 delta ++ " (> " ++ fmt1 stopBuffer ++ ")"

def wateringPendingReason (sm mmax : Flt) : String :=
  "Soil moisture " ++ fmt1 sm ++ "% exceeded configured max " ++ fmt1 mmax ++ "%"

def fieldStopReason (sm mfmax delta : Flt) : String :=
  "Soil moisture " ++ fmt1 sm ++ "% exceeded configured field max " ++ fmt1 mfmax ++
    "% by " ++ fmt1 delta ++ " (> " ++ fmt1 stopBuffer ++ ")"

def fieldPendingReason (sm mfmax : Flt) : String :=
  "Soil moisture " ++ fmt1 sm ++ "% exceeded configured field max " ++ fmt1 mfmax ++ "%"

def tempMaxStopReason (tv tmax delta : Flt) : String :=
  "Temperature " ++ fmt1 tv ++ "C exceeded configured max " ++ fmt1 tmax ++
    "C by " ++ fmt1 delta ++ " (> " ++ fmt1 stopBuffer ++ ")"

def tempMaxPendingReason (tv tmax : Flt) : String :=
  "Temperature " ++ fmt1 tv ++ "C exceeded configured max " ++ fmt1 tmax ++ "C"

def tempMinStopReason (tv tmin delta : Flt) : String :=
  "Temperature " ++ fmt1 tv ++ "C below configured min " ++ fmt1 tmin ++
    "C by " ++ fmt1 delta ++ " (> " ++ fmt1 stopBuffer ++ ")"

def tempMinPendingReason (tv tmin : Flt) : String :=
  "Temperature " ++ fmt1 tv ++ "C below configured min " ++ fmt1 tmin ++ "C"

/-- First rule block of the task loop: watering/irrigation soil moisture
against `soil_moisture_max`. -/
def moistureMaxBlock (ttype : String) (soilMoisture moistureMax : Option Flt)
    (o : RuleOutcome) : RuleOutcome :=
  if ttype = "watering" ∨ ttype = "irrigation" then
    match soilMoisture, moistureMax with
    | some sm, some mmax =>
      if sm > mmax then
        let delta := sm - mmax
        if delta > stopBuffer then
          { o with stopReasons := o.stopReasons ++ [wateringStopReason sm mmax delta] }
        else
          { o with pendingReasons := o.pendingReasons ++ [wateringPendingReason sm mmax] }
      else o
    | _, _ => o
  else o

/-- Second rule block: weeding/land-prep/fertilization soil moisture
against `soil_moisture_field_max`. -/
def fieldMoistureBlock (ttype : String) (soilMoisture moistureFieldMax : Option Flt)
    (o : RuleOutcome) : RuleOutcome :=
  if ttype = "weeding" ∨ ttype = "land-prep" ∨ ttype = "fertilization" then
    match soilMoisture, moistureFieldMax with
    | some sm, some mfmax =>
      if sm > mfmax then
        let delta := sm - mfmax
        if delta > stopBuffer then
          { o with stopReasons := o.stopReasons ++ [fieldStopReason sm mfmax delta] }
        else
          { o with pendingReasons := o.pendingReasons ++ [fieldPendingReason sm mfmax] }
      else o
    | _, _ => o
  else o

/-- Third rule block: temperature against `temperature_max` (all task
types). -/
def tempMaxBlock (temperature temperatureMax : Option Flt) (o : RuleOutcome) :
    RuleOutcome :=
  match temperature, temperatureMax with
  | some tv, some tmax =>
    if tv > tmax then
      let delta := tv - tmax
      if delta > stopBuffer then
        { o with stopReasons := o.stopReasons ++ [tempMaxStopReason tv tmax delta] }
      else
        { o with pendingReasons := o.pendingReasons ++ [tempMaxPendingReason tv tmax] }
    else o
  | _, _ => o

/-- Fourth rule block: temperature against `temperature_min` (all task
types). -/
def tempMinBlock (temperature temperatureMin : Option Flt) (o : RuleOutcome) :
    RuleOutcome :=
  match temperature, temperatureMin with
  | some tv, some tmin =>
    if tv < tmin then
      let delta := tmin - tv
      if delta > stopBuffer then
        { o with stopReasons := o.stopReasons ++ [tempMinStopReason tv tmin delta] }
      else
        { o with pendingReasons := o.pendingReasons ++ [tempMinPendingReason tv tmin] }
    else o
  | _, _ => o

/-- The four threshold-rule blocks of the task loop of
`evaluate_status_threshold_core`, in source order.  A missing reading or missing threshold skips
the corresponding rule. -/
def evalRules (ttype : String) (soilMoisture temperature : Option Flt)
    (moistureMax moistureFieldMax temperatureMin temperatureMax : Option Flt) :
    RuleOutcome :=
  tempMinBlock temperature temperatureMin
    (tempMaxBlock temperature temperatureMax
      (fieldMoistureBlock ttype soilMoisture moistureFieldMax
        (moistureMaxBlock ttype soilMoisture moistureMax {})))

def THRESHOLDS_OK_REASON : String := "Proceed (thresholds OK)"

/-- Combination of the rule outcomes (`if stop_reasons or pending_reasons`):
any Stop-level breach forces Stop; otherwise any Pending-level breach
forces Pending and the Safe-Date Finder computes a proposed date. -/
def ruleDecision (targetDate rescheduleDays : Int) (cal : RainCal)
    (rainMmMin rainMmHeavy : Flt) (taskTitle : String) (o : RuleOutcome) :
    String × String × Option Int :=
  if o.stopReasons ≠ [] then
    ("Stop", "Stop: " ++ joinSep o.stopReasons ++ ".", none)
  else if o.pendingReasons ≠ [] then
    let pd := (findNextSafeDate targetDate rescheduleDays MAX_LOOKAHEAD_DAYS cal
      rainMmMin rainMmHeavy taskTitle).1
    ("Pending",
     "Pending: " ++ joinSep o.pendingReasons ++ ". Rescheduled to " ++ toString pd ++ ".",
     some pd)
  else ("Proceed", THRESHOLDS_OK_REASON, none)

/-! ### routers/schedule.py: AI escalation gate -/

/-- Feature dict handed to `predict_ai_status`. -/
structure AiFeatures where
  soil_moisture : Flt
  temperature : Flt
  rain_today : Flt
  rain_next_3d : Flt
  task_type : String
  deriving Repr, DecidableEq

def aiReasonStr (label : String) (conf : Flt) : String :=
  "AI predicted " ++ label ++ " (conf " ++ fmt2 conf ++ ")"

/-- The AI gating block: a predicted label only escalates, Pending is
accepted from Proceed unconditionally, Stop needs confidence ≥ 0.70, and
the AI rationale is merged into the reason. -/
def aiGate (status : String) (reason : Option String) (aiLabel : String)
    (aiConf : Flt) : String × Option String :=
  if status = "Proceed" then
    if aiLabel = "Pending" then
      ("Pending", mergeReasons reason (some (aiReasonStr "Pending" aiConf)))
    else if aiLabel = "Stop" ∧ aiConf ≥ 0.70 then
      ("Stop", mergeReasons reason (some (aiReasonStr "Stop" aiConf)))
    else (status, reason)
  else if status = "Pending" then
    if aiLabel = "Stop" ∧ aiConf ≥ 0.70 then
      ("Stop", mergeReasons reason (some (aiReasonStr "Stop" aiConf)))
    else (status, reason)
  else (status, reason)

/-! ### routers/schedule.py: the Threshold Evaluator -/

/-- Evaluator inputs after reading/threshold selection (payload vs
latest cleaned row vs defaults), which is upstream of the claims: the
sensor values, the selected thresholds, the rain calendar built from the
weather feed, and the external status predictor as an opaque function. -/
structure EvalEnv where
  plot_id : String
  target_date : Int
  reschedule_days : Int := 2
  soil_moisture : Option Flt
  temperature : Option Flt
  thresholds : Thresholds
  calendar : RainCal
  predictor : AiFeatures → String × Flt

/-- Python `x or y` on an optional string (`None` and `""` are falsy). -/
def pyOrStr (a : Option String) (b : Option String) : Option String :=
  match a with
  | some s => if s = "" then b else some s
  | none => b

/-- The rule stage of the per-task loop body: threshold selection
defaulting, the four rule blocks, and their combination into
`(new_status, new_reason, new_proposed_date)`. -/
def ruleStage (env : EvalEnv) (t : Task) : String × String × Option Int :=
  let th := resolveFieldMax env.thresholds
  let o := evalRules t.ttype env.soil_moisture env.temperature
    th.soil_moisture_max th.soil_moisture_field_max th.temperature_min th.temperature_max
  ruleDecision env.target_date env.reschedule_days env.calendar
    (th.rain_mm_min.getD 2) (th.rain_mm_heavy.getD 10) t.title o

/-- The conflict-adjustment stage: a Pending decision with a proposed date
is routed through the Conflict Resolver in propose mode
(`new_proposed_date = adjusted_date`,
`new_reason = adjusted_reason or new_reason`,
`new_status = adjusted_status or new_status`); returns
`(new_proposed_date, new_reason, new_status)`. -/
def adjustStage (store : List Task) (env : EvalEnv) (t : Task)
    (d0 : String × String × Option Int) : Option Int × Option String × String :=
  if d0.1 = "Pending" ∧ d0.2.2 ≠ none then
    let evalTask : Task :=
      { plot_id := env.plot_id, title := t.title, ttype := t.ttype,
        status := some d0.1, reason := some d0.2.1 }
    let a := adjustProposedDateForConflict store env.plot_id evalTask d0.2.2
    (a.1, pyOrStr a.2.1 (some d0.2.1), (pyOrStr a.2.2 (some d0.1)).getD d0.1)
  else (d0.2.2, some d0.2.1, d0.1)

/-- The AI-escalation stage: build the feature dict, call the predictor
and apply the gate. -/
def aiStage (env : EvalEnv) (t : Task)
    (adj : Option Int × Option String × String) : String × Option String × Option Int :=
  let metrics := getRainMetrics env.calendar env.target_date
  let features : AiFeatures :=
    { soil_moisture := env.soil_moisture.getD 0,
      temperature := env.temperature.getD 0,
      rain_today := metrics.1,
      rain_next_3d := metrics.2,
      task_type := lowerStr t.ttype }
  let pred := env.predictor features
  let g := aiGate adj.2.2 adj.2.1 pred.1 pred.2
  (g.1, g.2, adj.1)

/-- Per-task body of the loop of `evaluate_status_threshold_core`:
threshold rules, safe-date search, conflict adjustment of the proposal,
and AI escalation; returns `(new_status, new_reason, new_proposed_date)`. -/
def evalTaskPipeline (store : List Task) (env : EvalEnv) (t : Task) :
    String × Option String × Option Int :=
  aiStage env t (adjustStage store env t (ruleStage env t))

/-- Python `previous_status = (t.get("status") or "").strip()`. -/
def previousStatus (t : Task) : String := stripStr (t.status.getD "")

/-- Python `should_update = changed or proposed_changed or reason_changed`. -/
def shouldUpdate (t : Task) (r : String × Option String × Option Int) : Bool :=
  r.1 ≠ previousStatus t || r.2.2 ≠ t.proposed_date || r.2.1 ≠ t.reason

def RESCHEDULE_TYPE_THRESHOLD : String := "THRESHOLD_RESCHEDULE"

/-- Per-task update payload of phase 4 applied to the stored row.  The
schema probes `supports_reschedule_metadata` / `supports_approval_state`
are modelled as true (the deployed schema has the columns); metadata and
approval state are written only when a proposed date is present.  Note
that the payload unconditionally writes
`original_date := target_date.isoformat()`. -/
def applyThresholdUpdate (targetDate : Int)
    (r : String × Option String × Option Int) (t : Task) : Task :=
  let t1 := { t with
    status := some r.1,
    reason := r.2.1,
    proposed_date := r.2.2,
    original_date := some targetDate }
  match r.2.2 with
  | some _ => { t1 with
      reschedule_type := some RESCHEDULE_TYPE_THRESHOLD,
      reschedule_visible := some true,
      approval_state := some "pending" }
  | none => t1

/-- One DB `update … eq("id", task_id)` step, folded over the collected
updates (each statement touches every row with the matching id). -/
def applyOneUpdate (targetDate : Int) (t : Task)
    (u : String × (String × Option String × Option Int)) : Task :=
  if t.id = u.1 then applyThresholdUpdate targetDate u.2 t else t

/-- Task selection of the pass: by plot and exact target date. -/
def selectedForEval (env : EvalEnv) (t : Task) : Bool :=
  t.plot_id = env.plot_id && t.task_date = some env.target_date

/-- The update collected for one task: present exactly when the computed
status, reason or proposed date differs from the stored values. -/
def collectUpdate (store : List Task) (env : EvalEnv) (t : Task) :
    Option (String × (String × Option String × Option Int)) :=
  let r := evalTaskPipeline store env t
  if shouldUpdate t r then some (t.id, r) else none

/-- Python `evaluate_status_threshold_core` restricted to its persistent effect:
the store after the pass and the number of task updates written.  With no
selected tasks, or with both readings missing, the pass writes nothing. -/
def runEvaluator (store : List Task) (env : EvalEnv) : List Task × Nat :=
  let tasks := store.filter (selectedForEval env)
  if tasks = [] then (store, 0)
  else if env.temperature = none ∧ env.soil_moisture = none then (store, 0)
  else
    let updates := tasks.filterMap (collectUpdate store env)
    let newStore := store.map (fun t =>
      updates.foldl (applyOneUpdate env.target_date) t)
    (newStore, updates.length)

/-! ### routers/tasks.py: Approval Workflow -/

/-- Python `approve_reschedule`, task-level: `none` models the 400 response when
there is no proposed date (the task row is not modified). -/
def approveReschedule (t : Task) : Option Task :=
  match t.proposed_date with
  | none => none
  | some proposed =>
    let r := stripStr (t.reason.getD "")
    let newReason := if r ≠ "" then r ++ " | Approved by manager" else "Approved by manager"
    some { t with
      task_date := some proposed,
      proposed_date := none,
      status := some "Proceed",
      reason := some newReason }

/-- Python `reject_reschedule`, task-level. -/
def rejectReschedule (t : Task) : Option Task :=
  match t.proposed_date with
  | none => none
  | some _ =>
    let r := stripStr (t.reason.getD "")
    let newReason := if r ≠ "" then r ++ " | Rejected by manager" else "Rejected by manager"
    let keepStatus0 := match t.status with
      | some s => if s = "" then "Pending" else s
      | none => "Pending"
    let keepStatus := if keepStatus0 = "Proceed" then "Pending" else keepStatus0
    some { t with
      proposed_date := none,
      status := some keepStatus,
      reason := some newReason }

/-! ### routers/schedule.py: Template Expander -/

/-- The template fields `_dates_for_template` reads. -/
structure Template where
  start_offset_days : Option Int := none
  frequency : Option String := none
  interval : Option Int := none
  end_offset_days : Option Int := none
  deriving Repr, DecidableEq

/-- Python `int(tpl.get("interval") or 1)`: `None` and `0` are falsy and fall
back to 1. -/
def templateInterval (tpl : Template) : Int :=
  match tpl.interval with
  | none => 1
  | some i => if i = 0 then 1 else i

/-- Python `(tpl.get("frequency") or "once").lower()`. -/
def templateFrequency (tpl : Template) : String :=
  let f := tpl.frequency.getD "once"
  lowerStr (if f = "" then "once" else f)

/-- The `while cur <= end_date` loop, with explicit fuel: `none` means the
loop has not terminated within `fuel` iterations (for a positive step a
sufficiently large fuel always yields `some`; a non-positive step with
`cur ≤ end` never does). -/
def datesLoop (endDate : Int) (stepDays : Int) : Nat → Int → Option (List Int)
  | 0, cur => if cur ≤ endDate then none else some []
  | fuel + 1, cur =>
      if cur ≤ endDate then
        (datesLoop endDate stepDays fuel (cur + stepDays)).map (cur :: ·)
      else some []

/-- Python `_dates_for_template`.  `fuel` bounds the loop as above. -/
def datesForTemplate (startDate : Int) (tpl : Template) (horizonDays : Int := 120)
    (fuel : Nat := 1000000) : Option (List Int) :=
  let base := startDate + (tpl.start_offset_days.getD 0)
  let freq := templateFrequency tpl
  let interval := templateInterval tpl
  let endDate := match tpl.end_offset_days with
    | some e => startDate + e
    | none => startDate + horizonDays
  if freq = "once" ∨ freq = "event" then
    some (if base ≤ endDate then [base] else [])
  else
    let stepDays :=
      if freq = "daily" then 1 * interval
      else if freq = "weekly" then 7 * interval
      else if freq = "monthly" then 30 * interval
      else 1
    datesLoop endDate stepDays fuel base

/-! ### Spec-side predicates and concrete fixtures -/

/-- Escalation order of the three statuses (Proceed < Pending < Stop). -/
def statusRank (s : String) : Nat :=
  if s = "Pending" then 1 else if s = "Stop" then 2 else 0

/-- Acceptance condition of the Safe-Date Finder as stated by the spec: the
rainfall of the day is below the heavy limit, and for a rain-sensitive task
also below the soft limit.  (Logically the negation of the two `continue`
guards in `_find_next_safe_date`.) -/
def safeDaySpec (cal : RainCal) (rainMmMin rainMmHeavy : Flt) (title : String)
    (d : Int) : Prop :=
  calGet cal d < rainMmHeavy ∧ (isRainSensitive title = true → calGet cal d < rainMmMin)

instance (cal : RainCal) (rainMmMin rainMmHeavy : Flt) (title : String) (d : Int) :
    Decidable (safeDaySpec cal rainMmMin rainMmHeavy title d) :=
  inferInstanceAs (Decidable (_ ∧ _))

/-- Hormone task dated day 0 (= 2026-01-01) with a 7-day buffer. -/
def hormoneTask : Task :=
  { id := "H1", plot_id := "p", title := "Hormone application", ttype := "hormone",
    task_date := some 0, status := some "Proceed", buffer_days := some 7 }

/-- Fertilizer task dated day 2 (= 2026-01-03) on the same plot. -/
def fertiliserTask : Task :=
  { id := "F1", plot_id := "p", title := "Fertilizer application",
    ttype := "fertilization", task_date := some 2, status := some "Proceed" }

/-- The default threshold profile restricted to the fields the rules read
(`TASK_EVAL_DEFAULTS`). -/
def sampleThresholds : Thresholds :=
  { soil_moisture_max := some 25, temperature_min := some 22,
    temperature_max := some 32 }

/-- An external predictor that always answers the fail-safe default
`("Proceed", 0.5)`. -/
def constProceedPredictor : AiFeatures → String × Flt := fun _ => ("Proceed", 0.5)

/-- A watering task that was previously shifted by the Conflict Resolver:
`original_date` (day 0) differs from `task_date` (day 8). -/
def shiftedWateringTask : Task :=
  { id := "T1", plot_id := "p", title := "Watering session", ttype := "watering",
    task_date := some 8, status := some "Proceed", original_date := some 0 }

/-- Evaluation of day 8 with soil moisture 36 against max 25 (a hard
breach). -/
def stopBreachEnv : EvalEnv :=
  { plot_id := "p", target_date := 8, soil_moisture := some 36,
    temperature := some 30, thresholds := sampleThresholds, calendar := [],
    predictor := constProceedPredictor }

/-- A watering task whose stored status is Pending. -/
def pendingWateringTask : Task :=
  { id := "T2", plot_id := "p", title := "Watering session", ttype := "watering",
    task_date := some 3, status := some "Pending",
    reason := some "Pending: previously breached." }

/-- Evaluation of day 3 with all readings inside the thresholds. -/
def calmEnv : EvalEnv :=
  { plot_id := "p", target_date := 3, soil_moisture := some 20,
    temperature := some 30, thresholds := sampleThresholds, calendar := [],
    predictor := constProceedPredictor }

/-- A watering task with a soft moisture breach pending evaluation. -/
def proceedWateringTask : Task :=
  { id := "T3", plot_id := "p", title := "Watering session", ttype := "watering",
    task_date := some 3, status := some "Proceed" }

/-- Evaluation of day 3 with soil moisture 30 against max 25 (a soft
breach). -/
def softBreachEnv : EvalEnv :=
  { plot_id := "p", target_date := 3, soil_moisture := some 30,
    temperature := some 30, thresholds := sampleThresholds, calendar := [],
    predictor := constProceedPredictor }

/-- A recurring daily template with a negative interval and no end
offset. -/
def negativeIntervalTemplate : Template :=
  { frequency := some "daily", interval := some (-1) }

/-! ## Helper lemmas -/

theorem strAppend_assoc (a b c : String) : a ++ b ++ c = a ++ (b ++ c) := by
  cases a with
  | mk da =>
    cases b with
    | mk db =>
      cases c with
      | mk dc =>
        show String.mk (da ++ db ++ dc) = String.mk (da ++ (db ++ dc))
        rw [List.append_assoc]

theorem strAppend_empty (a : String) : a ++ "" = a := by
  cases a with
  | mk da =>
    show String.mk (da ++ []) = String.mk da
    rw [List.append_nil]

theorem containsStr_appended (l part r : String) : containsStr (l ++ part ++ r) part :=
  ⟨l, r, rfl⟩

theorem containsStr_left_of_sep (a sep b : String) : containsStr (a ++ sep ++ b) a := by
  refine ⟨"", sep ++ b, ?_⟩
  rw [strAppend_assoc]
  rfl

theorem containsStr_right_of_sep (a sep b : String) : containsStr (a ++ sep ++ b) b :=
  ⟨a ++ sep, "", (strAppend_empty _).symm⟩

/-- The `while` loop of `_dates_for_template` never terminates when the
step is non-positive and the first candidate is within the end date. -/
theorem datesLoop_nonpos_step_never_terminates (endDate stepDays : Int)
    (hstep : stepDays ≤ 0) :
    ∀ (fuel : Nat) (cur : Int), cur ≤ endDate →
      datesLoop endDate stepDays fuel cur = none := by
  intro fuel
  induction fuel with
  | zero =>
    intro cur h
    simp [datesLoop, h]
  | succ n ih =>
    intro cur h
    have h2 : cur + stepDays ≤ endDate := by omega
    simp [datesLoop, h, ih _ h2]

/-! ## Claims -/

/-- C3: for a plot with a hormone task dated 2026-01-01 (day 0, buffer 7)
and a fertilizer task dated 2026-01-03 (day 2), conflict resolution with
shift and proposal enabled moves the fertilizer task to 2026-01-09 (day
8) — the first day after the latest end (day 7) of all overlapping
hormone windows that lies in no hormone window — escalates its status
from Proceed to Pending, appends the fixed conflict reason, and leaves
`proposed_date = task_date =` day 8. -/
theorem conflict_resolution_moves_fertiliser_to_jan9 :
    (applyFertiliserConflictResolution [fertiliserTask] [hormoneTask, fertiliserTask]
        FERTILISER_HORMONE_CONFLICT_REASON true).2 =
      [{ fertiliserTask with
          task_date := some 8,
          proposed_date := some 8,
          status := some "Pending",
          original_date := some 2,
          reason := some FERTILISER_HORMONE_CONFLICT_REASON }] ∧
    latestBlockEnd 2 (buildHormoneWindows [hormoneTask, fertiliserTask]) = some 7 ∧
    isBlocked 7 (buildHormoneWindows [hormoneTask, fertiliserTask]) = true ∧
    isBlocked 8 (buildHormoneWindows [hormoneTask, fertiliserTask]) = false := by
  decide

/-- C1 (code bug): the persisted update payload of the Threshold Evaluator
unconditionally writes `original_date := target_date`, so a task whose
`original_date` (day 0) differs from its `task_date` (day 8, after an
earlier conflict shift) has its `original_date` overwritten to day 8 by
the evaluation pass — contradicting "`original_date`, once set, is never
overwritten". -/
theorem threshold_update_overwrites_original_date :
    shiftedWateringTask.original_date = some 0 ∧
    (runEvaluator [shiftedWateringTask] stopBreachEnv).2 = 1 ∧
    (runEvaluator [shiftedWateringTask] stopBreachEnv).1.map Task.original_date =
      [some 8] := by
  decide

/-- C7 (counterexample): a task stored as Pending is reset to Proceed by
the automated Threshold Evaluator when the readings no longer breach any
threshold — the pass persists a status regression without any Approval
Workflow involvement. -/
theorem evaluator_resets_pending_to_proceed :
    pendingWateringTask.status = some "Pending" ∧
    (runEvaluator [pendingWateringTask] calmEnv).2 = 1 ∧
    (runEvaluator [pendingWateringTask] calmEnv).1.map Task.status =
      [some "Proceed"] := by
  decide

/-- C10 (counterexample): merging is not plain concatenation with
`" | "`: an internal-marker part already present in the stored reason
(here the conflict-buffer note) is dropped by `merge_reasons` itself, so
the merge of the stored conflict note with a new note loses the marker
part in storage. -/
theorem merge_drops_internal_marker_part :
    mergeReasons (some FERTILISER_HORMONE_CONFLICT_REASON) (some "New note") =
      some "New note" ∧
    mergeReasons (some FERTILISER_HORMONE_CONFLICT_REASON) (some "New note") ≠
      some (FERTILISER_HORMONE_CONFLICT_REASON ++ " | " ++ "New note") := by
  decide

/-- C9 (code bug): a zero interval is treated as 1, as the claim states;
but a negative interval is neither rejected nor treated as 1 — for a
daily template with interval −1 and no end offset the generation loop
never terminates (no fuel bound suffices), producing an unbounded
sequence. -/
theorem template_expander_negative_interval_diverges :
    templateInterval { interval := some 0 } = 1 ∧
    templateInterval negativeIntervalTemplate = -1 ∧
    ∀ fuel : Nat, datesForTemplate 0 negativeIntervalTemplate 120 fuel = none := by
  refine ⟨rfl, rfl, ?_⟩
  intro fuel
  have e : datesForTemplate 0 negativeIntervalTemplate 120 fuel =
      datesLoop 120 (-1) fuel 0 := rfl
  rw [e]
  exact datesLoop_nonpos_step_never_terminates 120 (-1) (by omega) fuel 0 (by omega)

/-! ## Status-escalation helper lemmas -/

/-- Resolving a fertiliser task never changes a status that is already `"Pending"`. -/
theorem resolveFertiliserTask_status_pending (windows : List (Int × Int))
    (cutoff : Option Int) (reason : String) (shift createProp : Bool)
    (rtype : Option String) (rvis : Option Bool) (t : Task)
    (h : t.status = some "Pending") :
    ((resolveFertiliserTask windows cutoff reason shift createProp rtype rvis t).1).status =
      some "Pending" := by
  unfold resolveFertiliserTask
  split
  · exact h
  · split
    · exact h
    · split
      · exact h
      · split
        · exact h
        · split
          · exact h
          · rw [h]
            by_cases hs : shift = true <;>
              by_cases hc : createProp = true <;>
                simp [hs, hc, normalizeTextOpt, normalizeText, h]

/-- The conflict adjustment of a proposed date keeps a `"Pending"` status
pending. -/
theorem adjust_keeps_pending (store : List Task) (plotId : String) (task : Task)
    (pd : Option Int) (h : task.status = some "Pending") :
    (adjustProposedDateForConflict store plotId task pd).2.2 = some "Pending" := by
  cases pd with
  | none => exact h
  | some cand =>
    cases hf : isFertiliserTask task with
    | false => simp [adjustProposedDateForConflict, hf, h]
    | true =>
      have htemp : ({ task with task_date := some cand } : Task).status = some "Pending" := h
      simp only [adjustProposedDateForConflict, hf, Bool.not_true, Bool.false_eq_true,
        if_false, applyFertiliserConflictResolution, List.map_cons, List.map_nil]
      rcases hres : resolveFertiliserTask
          (buildHormoneWindows
            (fetchPlotTasksForConflictCheck store plotId (cand - DEFAULT_HORMONE_BUFFER_DAYS)
              (cand + DEFAULT_HORMONE_BUFFER_DAYS) ++ [{ task with task_date := some cand }]))
          (getProcessingCutoffDate
            (fetchPlotTasksForConflictCheck store plotId (cand - DEFAULT_HORMONE_BUFFER_DAYS)
              (cand + DEFAULT_HORMONE_BUFFER_DAYS) ++ [{ task with task_date := some cand }]))
          FERTILISER_HORMONE_CONFLICT_REASON false true none none
          { task with task_date := some cand } with ⟨t2, b⟩
      have h2 := resolveFertiliserTask_status_pending
        (buildHormoneWindows
          (fetchPlotTasksForConflictCheck store plotId (cand - DEFAULT_HORMONE_BUFFER_DAYS)
            (cand + DEFAULT_HORMONE_BUFFER_DAYS) ++ [{ task with task_date := some cand }]))
        (getProcessingCutoffDate
          (fetchPlotTasksForConflictCheck store plotId (cand - DEFAULT_HORMONE_BUFFER_DAYS)
            (cand + DEFAULT_HORMONE_BUFFER_DAYS) ++ [{ task with task_date := some cand }]))
        FERTILISER_HORMONE_CONFLICT_REASON false true none none
        { task with task_date := some cand } htemp
      rw [hres] at h2
      rw [hres]
      cases b with
      | false => simp [h]
      | true => simpa using h2

/-- The AI gate never downgrades the rule-computed status. -/
theorem aiGate_never_downgrades (s : String) (r : Option String) (l : String)
    (c : Flt) (h : s = "Proceed" ∨ s = "Pending" ∨ s = "Stop") :
    statusRank s ≤ statusRank (aiGate s r l c).1 := by
  rcases h with h | h | h <;> subst h
  · have h0 : statusRank "Proceed" = 0 := by decide
    rw [h0]
    exact Nat.zero_le _
  · unfold aiGate
    rw [if_neg (by decide), if_pos rfl]
    by_cases hc : l = "Stop" ∧ c ≥ 0.70
    · rw [if_pos hc]
      show statusRank "Pending" ≤ statusRank "Stop"
      decide
    · rw [if_neg hc]
  · unfold aiGate
    rw [if_neg (by decide), if_neg (by decide)]

/-- C7 (amended): within one evaluation pass the freshly computed status
only escalates — the conflict adjustment keeps a Pending decision Pending
and the AI gate never downgrades — and among the approval operations only
approve sets a task back to Proceed while reject never yields Proceed;
but the evaluator recomputes status from the rules alone, so the
persisted status may regress from a stored Pending/Stop to Proceed when
no rule breaches (see the counterexample). -/
theorem status_escalation_within_pass :
    (∀ (s : String) (r : Option String) (l : String) (c : Flt),
        s = "Proceed" ∨ s = "Pending" ∨ s = "Stop" →
        statusRank s ≤ statusRank (aiGate s r l c).1) ∧
    (∀ (store : List Task) (plotId : String) (task : Task) (pd : Option Int),
        task.status = some "Pending" →
        (adjustProposedDateForConflict store plotId task pd).2.2 = some "Pending") ∧
    (∀ (t : Task) (pd : Int), t.proposed_date = some pd →
        ∃ t', approveReschedule t = some t' ∧ t'.status = some "Proceed") ∧
    (∀ (t t' : Task), rejectReschedule t = some t' →
        t'.status ≠ some "Proceed" ∧
          (t.status = some "Proceed" → t'.status = some "Pending")) := by
  refine ⟨aiGate_never_downgrades, adjust_keeps_pending, ?_, ?_⟩
  · intro t pd h
    unfold approveReschedule
    rw [h]
    exact ⟨_, rfl, rfl⟩
  · intro t t' h
    unfold rejectReschedule at h
    cases hpd : t.proposed_date with
    | none => rw [hpd] at h; exact absurd h (by simp)
    | some pd =>
      rw [hpd] at h
      simp only [Option.some.injEq] at h
      subst h
      constructor
      · simp only [ne_eq, Option.some.injEq]
        split <;> simp_all
      · intro hs
        simp [hs]

/-- C7 (witness): the amended theorem at concrete inputs. -/
theorem status_escalation_within_pass_witness :
    statusRank "Pending" ≤
      statusRank (aiGate "Pending" (some "r") "Stop" 0.85).1 ∧
    (adjustProposedDateForConflict [] "p"
        { fertiliserTask with status := some "Pending" } (some 3)).2.2 =
      some "Pending" ∧
    (∃ t', approveReschedule { proceedWateringTask with proposed_date := some 5 } =
        some t' ∧ t'.status = some "Proceed") := by
  refine ⟨?_, ?_, ?_⟩
  · exact status_escalation_within_pass.1 "Pending" (some "r") "Stop" 0.85
      (Or.inr (Or.inl rfl))
  · exact status_escalation_within_pass.2.1 [] "p"
      { fertiliserTask with status := some "Pending" } (some 3) rfl
  · exact status_escalation_within_pass.2.2.1
      { proceedWateringTask with proposed_date := some 5 } 5 rfl

theorem strEmpty_append (s : String) : "" ++ s = s := by
  cases s with
  | mk d =>
    show String.mk ([] ++ d) = String.mk d
    rw [List.nil_append]

theorem containsStr_self (s : String) : containsStr s s := by
  refine ⟨"", "", ?_⟩
  rw [strAppend_empty, strEmpty_append]

theorem containsStr_concat_note (r0 sep note : String) :
    containsStr (r0 ++ (sep ++ note)) note := by
  refine ⟨r0 ++ sep, "", ?_⟩
  rw [strAppend_empty, strAppend_assoc]

/-- C8: approve sets `task_date` to the proposed date, clears the
proposal, resets status to Proceed and appends an approval note; reject
clears the proposal, keeps `task_date`, forces Pending only from
Proceed (otherwise keeps the stored status) and appends a rejection
note; with no proposal both operations fail without modifying the
task. -/
theorem approval_workflow_semantics :
    (∀ (t : Task) (pd : Int), t.proposed_date = some pd →
      ∃ t', approveReschedule t = some t' ∧
        t'.task_date = some pd ∧ t'.proposed_date = none ∧
        t'.status = some "Proceed" ∧
        containsStr (t'.reason.getD "") "Approved by manager") ∧
    (∀ (t : Task) (pd : Int), t.proposed_date = some pd →
      ∃ t', rejectReschedule t = some t' ∧
        t'.proposed_date = none ∧ t'.task_date = t.task_date ∧
        (t.status = some "Proceed" → t'.status = some "Pending") ∧
        (∀ s : String, t.status = some s → s ≠ "Proceed" → s ≠ "" →
          t'.status = some s) ∧
        containsStr (t'.reason.getD "") "Rejected by manager") ∧
    (∀ t : Task, t.proposed_date = none →
      approveReschedule t = none ∧ rejectReschedule t = none) := by
  refine ⟨?_, ?_, ?_⟩
  · intro t pd h
    unfold approveReschedule
    rw [h]
    refine ⟨_, rfl, rfl, rfl, rfl, ?_⟩
    by_cases hr : stripStr (t.reason.getD "") = ""
    · simp only [hr]
      simp only [ne_eq, not_true_eq_false, if_false, Option.getD_some]
      exact containsStr_self _
    · simp only [ne_eq, hr, not_false_eq_true, if_true, Option.getD_some]
      rw [show (" | Approved by manager" : String) =
        " | " ++ "Approved by manager" from by decide]
      exact containsStr_concat_note _ " | " "Approved by manager"
  · intro t pd h
    unfold rejectReschedule
    rw [h]
    refine ⟨_, rfl, rfl, rfl, ?_, ?_, ?_⟩
    · intro hs
      simp [hs]
    · intro s hs hne hne'
      simp [hs, hne, hne']
    · by_cases hr : stripStr (t.reason.getD "") = ""
      · simp only [hr]
        simp only [ne_eq, not_true_eq_false, if_false, Option.getD_some]
        exact containsStr_self _
      · simp only [ne_eq, hr, not_false_eq_true, if_true, Option.getD_some]
        rw [show (" | Rejected by manager" : String) =
          " | " ++ "Rejected by manager" from by decide]
        exact containsStr_concat_note _ " | " "Rejected by manager"
  · intro t h
    exact ⟨by simp [approveReschedule, h], by simp [rejectReschedule, h]⟩

/-- C8 (witness): the approval-workflow theorem at concrete tasks. -/
theorem approval_workflow_semantics_witness :
    (∃ t', approveReschedule { pendingWateringTask with proposed_date := some 6 } =
        some t' ∧ t'.task_date = some 6 ∧ t'.proposed_date = none ∧
        t'.status = some "Proceed" ∧
        containsStr (t'.reason.getD "") "Approved by manager") ∧
    (∃ t', rejectReschedule { pendingWateringTask with proposed_date := some 6 } =
        some t' ∧ t'.proposed_date = none ∧
        t'.task_date = pendingWateringTask.task_date ∧
        containsStr (t'.reason.getD "") "Rejected by manager") ∧
    approveReschedule pendingWateringTask = none := by
  refine ⟨?_, ?_, ?_⟩
  · exact approval_workflow_semantics.1 { pendingWateringTask with proposed_date := some 6 } 6 rfl
  · obtain ⟨t', h1, h2, h3, _, _, h6⟩ :=
      approval_workflow_semantics.2.1 { pendingWateringTask with proposed_date := some 6 } 6 rfl
    exact ⟨t', h1, h2, h3, h6⟩
  · exact (approval_workflow_semantics.2.2 pendingWateringTask rfl).1

/-- C10 (amended): merging concatenates with `" | "` only the parts that
survive internal-marker stripping: marker-free non-empty reasons are
appended verbatim, while a stored reason consisting of an internal marker
(or an empty reason) contributes nothing to the merge — stripping is
applied by the merge itself, not only for external display. -/
theorem merge_reasons_amended :
    (∀ a b : String, stripInternalReason (some a) = some a →
        stripInternalReason (some b) = some b →
        mergeReasons (some a) (some b) = some (a ++ " | " ++ b)) ∧
    (∀ b : Option String,
        mergeReasons (some FERTILISER_HORMONE_CONFLICT_REASON) b =
          stripInternalReason b) ∧
    (∀ b : Option String, mergeReasons (some "") b = stripInternalReason b) := by
  refine ⟨?_, ?_, ?_⟩
  · intro a b ha hb
    unfold mergeReasons
    rw [ha, hb]
  · intro b
    have hC : stripInternalReason (some FERTILISER_HORMONE_CONFLICT_REASON) = none := by
      decide
    unfold mergeReasons
    rw [hC]
    cases hsb : stripInternalReason b <;> rfl
  · intro b
    have hE : stripInternalReason (some "") = none := by decide
    unfold mergeReasons
    rw [hE]
    cases hsb : stripInternalReason b <;> rfl

/-- C10 (amended, witness): two clean reasons merge by concatenation. -/
theorem merge_reasons_amended_witness :
    mergeReasons (some "Stop: wet") (some "AI predicted Stop (conf 0.85)") =
      some ("Stop: wet" ++ " | " ++ "AI predicted Stop (conf 0.85)") :=
  merge_reasons_amended.1 "Stop: wet" "AI predicted Stop (conf 0.85)"
    (by decide) (by decide)

/-- C4: the AI gate only escalates — Proceed→Pending is accepted
unconditionally, Proceed→Stop and Pending→Stop only at confidence ≥
0.70, a Stop rule status is never changed — and on every accepted
escalation the AI rationale is merged into the reason (appended after the
original rationale for marker-free reasons) rather than replacing it; in
particular an AI Stop at confidence 0.85 over a rule-computed Proceed
yields Stop with both rationales in the reason. -/
theorem ai_escalation_only_gate :
    (∀ (r : Option String) (conf : Flt),
        aiGate "Proceed" r "Pending" conf =
          ("Pending", mergeReasons r (some (aiReasonStr "Pending" conf)))) ∧
    (∀ (r : Option String) (conf : Flt), conf ≥ 0.70 →
        aiGate "Proceed" r "Stop" conf =
          ("Stop", mergeReasons r (some (aiReasonStr "Stop" conf))) ∧
        aiGate "Pending" r "Stop" conf =
          ("Stop", mergeReasons r (some (aiReasonStr "Stop" conf)))) ∧
    (∀ (r : Option String) (conf : Flt), ¬ conf ≥ 0.70 →
        aiGate "Proceed" r "Stop" conf = ("Proceed", r) ∧
        aiGate "Pending" r "Stop" conf = ("Pending", r)) ∧
    (∀ (r : Option String) (l : String) (conf : Flt),
        aiGate "Stop" r l conf = ("Stop", r)) ∧
    (∀ (s : String) (r : Option String) (l : String) (c : Flt),
        s = "Proceed" ∨ s = "Pending" ∨ s = "Stop" →
        statusRank s ≤ statusRank (aiGate s r l c).1) ∧
    (∀ a b : String, stripInternalReason (some a) = some a →
        stripInternalReason (some b) = some b →
        mergeReasons (some a) (some b) = some (a ++ " | " ++ b) ∧
        containsStr (a ++ " | " ++ b) a ∧ containsStr (a ++ " | " ++ b) b) ∧
    (aiGate "Proceed" (some THRESHOLDS_OK_REASON) "Stop" 0.85 =
        ("Stop", some (THRESHOLDS_OK_REASON ++ " | " ++ aiReasonStr "Stop" 0.85)) ∧
      containsStr (THRESHOLDS_OK_REASON ++ " | " ++ aiReasonStr "Stop" 0.85)
        THRESHOLDS_OK_REASON ∧
      containsStr (THRESHOLDS_OK_REASON ++ " | " ++ aiReasonStr "Stop" 0.85)
        (aiReasonStr "Stop" 0.85)) := by
  refine ⟨?_, ?_, ?_, ?_, aiGate_never_downgrades, ?_, ?_, ?_, ?_⟩
  · intro r conf
    unfold aiGate
    rw [if_pos rfl, if_pos rfl]
  · intro r conf h
    constructor
    · unfold aiGate
      rw [if_pos rfl, if_neg (by decide), if_pos ⟨rfl, h⟩]
    · unfold aiGate
      rw [if_neg (by decide), if_pos rfl, if_pos ⟨rfl, h⟩]
  · intro r conf h
    constructor
    · unfold aiGate
      rw [if_pos rfl, if_neg (by decide), if_neg (fun hh => h hh.2)]
    · unfold aiGate
      rw [if_neg (by decide), if_pos rfl, if_neg (fun hh => h hh.2)]
  · intro r l conf
    unfold aiGate
    rw [if_neg (by decide), if_neg (by decide)]
  · intro a b ha hb
    have hm : mergeReasons (some a) (some b) = some (a ++ " | " ++ b) := by
      unfold mergeReasons
      rw [ha, hb]
    exact ⟨hm, containsStr_left_of_sep a " | " b, containsStr_right_of_sep a " | " b⟩
  · decide
  · exact containsStr_left_of_sep _ " | " _
  · exact containsStr_right_of_sep _ " | " _

/-- C4 (witness): the gate at confidence 0.85 and 0.50, and one clean
merge. -/
theorem ai_escalation_only_gate_witness :
    aiGate "Proceed" (some "Stop: wet") "Stop" 0.85 =
      ("Stop", mergeReasons (some "Stop: wet") (some (aiReasonStr "Stop" 0.85))) ∧
    aiGate "Pending" (some "Stop: wet") "Stop" 0.5 = ("Pending", some "Stop: wet") ∧
    statusRank "Proceed" ≤ statusRank (aiGate "Proceed" none "Stop" 0.85).1 ∧
    mergeReasons (some "a") (some "b") = some ("a" ++ " | " ++ "b") := by
  refine ⟨?_, ?_, ?_, ?_⟩
  · exact (ai_escalation_only_gate.2.1 (some "Stop: wet") 0.85 (by decide)).1
  · exact (ai_escalation_only_gate.2.2.1 (some "Stop: wet") 0.5 (by decide)).2
  · exact ai_escalation_only_gate.2.2.2.2.1 "Proceed" none "Stop" 0.85 (Or.inl rfl)
  · exact (ai_escalation_only_gate.2.2.2.2.2.1 "a" "b" (by decide) (by decide)).1

theorem Flt.not_lt {a b : Flt} : ¬ (a < b) ↔ b ≤ a := Int.not_lt

theorem Flt.not_le {a b : Flt} : ¬ (a ≤ b) ↔ b < a := Int.not_le

/-- A candidate fails the Safe-Date Finder's checks exactly when one of
the two `continue` guards fires. -/
theorem not_safeDaySpec_iff (cal : RainCal) (rainMmMin rainMmHeavy : Flt)
    (title : String) (d : Int) :
    ¬ safeDaySpec cal rainMmMin rainMmHeavy title d ↔
      (calGet cal d ≥ rainMmHeavy ∨
        (calGet cal d ≥ rainMmMin ∧ isRainSensitive title = true)) := by
  unfold safeDaySpec
  rw [not_and_or, Classical.not_imp]
  constructor
  · rintro (h | ⟨hs, hm⟩)
    · exact Or.inl (Flt.not_lt.mp h)
    · exact Or.inr ⟨Flt.not_lt.mp hm, hs⟩
  · rintro (h | ⟨hm, hs⟩)
    · exact Or.inl (Flt.not_lt.mpr h)
    · exact Or.inr ⟨hs, Flt.not_lt.mpr hm⟩

/-- If every day scanned by the loop fails the checks, the scan returns
`none`. -/
theorem findSafeAux_none (target : Int) (cal : RainCal) (rainMmMin rainMmHeavy : Flt)
    (title : String) :
    ∀ (rem off : Nat),
      (∀ k : Nat, off ≤ k → k < off + rem →
        ¬ safeDaySpec cal rainMmMin rainMmHeavy title (target + k)) →
      findSafeAux target cal rainMmMin rainMmHeavy title off rem = none := by
  intro rem
  induction rem with
  | zero => intro off _; rfl
  | succ n ih =>
    intro off h
    have hoff := (not_safeDaySpec_iff cal rainMmMin rainMmHeavy title (target + off)).mp
      (h off le_rfl (by omega))
    have hrec : (∀ k : Nat, off + 1 ≤ k → k < (off + 1) + n →
        ¬ safeDaySpec cal rainMmMin rainMmHeavy title (target + k)) := by
      intro k h1 h2
      exact h k (by omega) (by omega)
    unfold findSafeAux
    rcases hoff with h1 | h1
    · rw [if_pos h1]
      exact ih (off + 1) hrec
    · by_cases hh : calGet cal (target + off) ≥ rainMmHeavy
      · rw [if_pos hh]
        exact ih (off + 1) hrec
      · rw [if_neg hh, if_pos h1]
        exact ih (off + 1) hrec

/-- The scan returns the first day within its window that passes the
checks. -/
theorem findSafeAux_first (target : Int) (cal : RainCal) (rainMmMin rainMmHeavy : Flt)
    (title : String) :
    ∀ (rem off o : Nat), off ≤ o → o < off + rem →
      safeDaySpec cal rainMmMin rainMmHeavy title (target + o) →
      (∀ k : Nat, off ≤ k → k < o →
        ¬ safeDaySpec cal rainMmMin rainMmHeavy title (target + k)) →
      findSafeAux target cal rainMmMin rainMmHeavy title off rem = some (target + o) := by
  intro rem
  induction rem with
  | zero => intro off o h1 h2; omega
  | succ n ih =>
    intro off o h1 h2 hspec hbefore
    rcases Nat.eq_or_lt_of_le h1 with heq | hlt
    · subst heq
      have hg1 : ¬ calGet cal (target + off) ≥ rainMmHeavy := Flt.not_le.mpr hspec.1
      have hg2 : ¬ (calGet cal (target + off) ≥ rainMmMin ∧ isRainSensitive title = true) :=
        fun hh => absurd (hspec.2 hh.2) (Flt.not_lt.mpr hh.1)
      unfold findSafeAux
      rw [if_neg hg1, if_neg hg2]
    · have hoff := (not_safeDaySpec_iff cal rainMmMin rainMmHeavy title (target + off)).mp
        (hbefore off le_rfl hlt)
      have htail := ih (off + 1) o (by omega) (by omega) hspec
        (fun k hk1 hk2 => hbefore k (by omega) hk2)
      unfold findSafeAux
      rcases hoff with hx | hx
      · rw [if_pos hx]
        exact htail
      · by_cases hh : calGet cal (target + off) ≥ rainMmHeavy
        · rw [if_pos hh]
          exact htail
        · rw [if_neg hh, if_pos hx]
          exact htail

/-- C5: with lookahead 7, the Safe-Date Finder returns the first candidate
among `target+1 … target+7` whose rainfall (0.0 for missing dates) is
below `rain_mm_heavy` and — for a rain-sensitive title — also below
`rain_mm_min`, with the safe-day rationale; if no candidate passes, it
returns `target + reschedule_days` with the fixed fallback rationale. -/
theorem safe_date_finder_first_or_fallback :
    ∀ (cal : RainCal) (rainMmMin rainMmHeavy : Flt) (title : String)
      (target rescheduleDays : Int),
      (∀ o : Nat, 1 ≤ o → o ≤ MAX_LOOKAHEAD_DAYS →
        safeDaySpec cal rainMmMin rainMmHeavy title (target + o) →
        (∀ k : Nat, 1 ≤ k → k < o →
          ¬ safeDaySpec cal rainMmMin rainMmHeavy title (target + k)) →
        findNextSafeDate target rescheduleDays MAX_LOOKAHEAD_DAYS cal
            rainMmMin rainMmHeavy title =
          (target + o, safeDayRationale (target + o))) ∧
      ((∀ o : Nat, 1 ≤ o → o ≤ MAX_LOOKAHEAD_DAYS →
          ¬ safeDaySpec cal rainMmMin rainMmHeavy title (target + o)) →
        findNextSafeDate target rescheduleDays MAX_LOOKAHEAD_DAYS cal
            rainMmMin rainMmHeavy title =
          (target + rescheduleDays, SAFE_DAY_FALLBACK_REASON)) := by
  intro cal rainMmMin rainMmHeavy title target rescheduleDays
  constructor
  · intro o h1 h2 hspec hbefore
    have := findSafeAux_first target cal rainMmMin rainMmHeavy title
      MAX_LOOKAHEAD_DAYS 1 o h1 (by unfold MAX_LOOKAHEAD_DAYS at h2 ⊢; omega) hspec
      (fun k hk1 hk2 => hbefore k hk1 hk2)
    unfold findNextSafeDate
    rw [this]
  · intro hnone
    have := findSafeAux_none target cal rainMmMin rainMmHeavy title
      MAX_LOOKAHEAD_DAYS 1
      (fun k hk1 hk2 => hnone k hk1 (by unfold MAX_LOOKAHEAD_DAYS at hk2 ⊢; omega))
    unfold findNextSafeDate
    rw [this]

/-- C5 (witness): day target+1 is too wet (heavy rain), day target+2
passes, so the finder returns target+2; and with every scanned day wet,
the fallback applies. -/
theorem safe_date_finder_witness :
    findNextSafeDate 0 2 MAX_LOOKAHEAD_DAYS [(1, 11)] 2 10 "Fertilizer application" =
      (2, safeDayRationale 2) ∧
    findNextSafeDate 0 2 MAX_LOOKAHEAD_DAYS
        [(1, 11), (2, 11), (3, 11), (4, 11), (5, 11), (6, 11), (7, 11)] 2 10
        "Watering session" =
      (2, SAFE_DAY_FALLBACK_REASON) := by
  constructor
  · have h := (safe_date_finder_first_or_fallback [(1, 11)] 2 10
      "Fertilizer application" 0 2).1 2 (by decide) (by decide) (by decide)
      (fun k hk1 hk2 => by
        interval_cases k
        · decide)
    simpa using h
  · have h := (safe_date_finder_first_or_fallback
      [(1, 11), (2, 11), (3, 11), (4, 11), (5, 11), (6, 11), (7, 11)] 2 10
      "Watering session" 0 2).2
      (fun o ho1 ho2 => by
        unfold MAX_LOOKAHEAD_DAYS at ho2
        interval_cases o <;> decide)
    simpa using h

theorem moistureMaxBlock_none_reading (ttype : String) (mm : Option Flt)
    (o : RuleOutcome) : moistureMaxBlock ttype none mm o = o := by
  unfold moistureMaxBlock
  cases mm <;> split <;> rfl

theorem moistureMaxBlock_none_threshold (ttype : String) (sm : Option Flt)
    (o : RuleOutcome) : moistureMaxBlock ttype sm none o = o := by
  unfold moistureMaxBlock
  cases sm <;> split <;> rfl

theorem fieldMoistureBlock_none_reading (ttype : String) (mf : Option Flt)
    (o : RuleOutcome) : fieldMoistureBlock ttype none mf o = o := by
  unfold fieldMoistureBlock
  cases mf <;> split <;> rfl

theorem fieldMoistureBlock_none_threshold (ttype : String) (sm : Option Flt)
    (o : RuleOutcome) : fieldMoistureBlock ttype sm none o = o := by
  unfold fieldMoistureBlock
  cases sm <;> split <;> rfl

theorem tempMaxBlock_none_reading (tm : Option Flt) (o : RuleOutcome) :
    tempMaxBlock none tm o = o := by
  unfold tempMaxBlock
  cases tm <;> rfl

theorem tempMaxBlock_none_threshold (tv : Option Flt) (o : RuleOutcome) :
    tempMaxBlock tv none o = o := by
  unfold tempMaxBlock
  cases tv <;> rfl

theorem tempMinBlock_none_reading (tm : Option Flt) (o : RuleOutcome) :
    tempMinBlock none tm o = o := by
  unfold tempMinBlock
  cases tm <;> rfl

theorem tempMinBlock_none_threshold (tv : Option Flt) (o : RuleOutcome) :
    tempMinBlock tv none o = o := by
  unfold tempMinBlock
  cases tv <;> rfl

theorem moistureMaxBlock_pending (ttype : String)
    (ht : ttype = "watering" ∨ ttype = "irrigation") (sm mmax : Flt)
    (h : sm > mmax) (h2 : ¬ sm - mmax > stopBuffer) (o : RuleOutcome) :
    moistureMaxBlock ttype (some sm) (some mmax) o =
      { o with pendingReasons := o.pendingReasons ++ [wateringPendingReason sm mmax] } := by
  unfold moistureMaxBlock
  rw [if_pos ht]
  dsimp only
  rw [if_pos h, if_neg h2]

theorem moistureMaxBlock_stop (ttype : String)
    (ht : ttype = "watering" ∨ ttype = "irrigation") (sm mmax : Flt)
    (h : sm > mmax) (h2 : sm - mmax > stopBuffer) (o : RuleOutcome) :
    moistureMaxBlock ttype (some sm) (some mmax) o =
      { o with stopReasons := o.stopReasons ++ [wateringStopReason sm mmax (sm - mmax)] } := by
  unfold moistureMaxBlock
  rw [if_pos ht]
  dsimp only
  rw [if_pos h, if_pos h2]

theorem fieldMoistureBlock_pending (ttype : String)
    (ht : ttype = "weeding" ∨ ttype = "land-prep" ∨ ttype = "fertilization")
    (sm mfmax : Flt) (h : sm > mfmax) (h2 : ¬ sm - mfmax > stopBuffer)
    (o : RuleOutcome) :
    fieldMoistureBlock ttype (some sm) (some mfmax) o =
      { o with pendingReasons := o.pendingReasons ++ [fieldPendingReason sm mfmax] } := by
  unfold fieldMoistureBlock
  rw [if_pos ht]
  dsimp only
  rw [if_pos h, if_neg h2]

theorem fieldMoistureBlock_stop (ttype : String)
    (ht : ttype = "weeding" ∨ ttype = "land-prep" ∨ ttype = "fertilization")
    (sm mfmax : Flt) (h : sm > mfmax) (h2 : sm - mfmax > stopBuffer)
    (o : RuleOutcome) :
    fieldMoistureBlock ttype (some sm) (some mfmax) o =
      { o with stopReasons := o.stopReasons ++ [fieldStopReason sm mfmax (sm - mfmax)] } := by
  unfold fieldMoistureBlock
  rw [if_pos ht]
  dsimp only
  rw [if_pos h, if_pos h2]

theorem tempMaxBlock_pending (tv tmax : Flt) (h : tv > tmax)
    (h2 : ¬ tv - tmax > stopBuffer) (o : RuleOutcome) :
    tempMaxBlock (some tv) (some tmax) o =
      { o with pendingReasons := o.pendingReasons ++ [tempMaxPendingReason tv tmax] } := by
  unfold tempMaxBlock
  dsimp only
  rw [if_pos h, if_neg h2]

theorem tempMaxBlock_stop (tv tmax : Flt) (h : tv > tmax)
    (h2 : tv - tmax > stopBuffer) (o : RuleOutcome) :
    tempMaxBlock (some tv) (some tmax) o =
      { o with stopReasons := o.stopReasons ++ [tempMaxStopReason tv tmax (tv - tmax)] } := by
  unfold tempMaxBlock
  dsimp only
  rw [if_pos h, if_pos h2]

theorem tempMinBlock_pending (tv tmin : Flt) (h : tv < tmin)
    (h2 : ¬ tmin - tv > stopBuffer) (o : RuleOutcome) :
    tempMinBlock (some tv) (some tmin) o =
      { o with pendingReasons := o.pendingReasons ++ [tempMinPendingReason tv tmin] } := by
  unfold tempMinBlock
  dsimp only
  rw [if_pos h, if_neg h2]

theorem tempMinBlock_stop (tv tmin : Flt) (h : tv < tmin)
    (h2 : tmin - tv > stopBuffer) (o : RuleOutcome) :
    tempMinBlock (some tv) (some tmin) o =
      { o with stopReasons := o.stopReasons ++ [tempMinStopReason tv tmin (tmin - tv)] } := by
  unfold tempMinBlock
  dsimp only
  rw [if_pos h, if_pos h2]

/-- C2: each enabled rule classifies a breach by its distance from the
limit — at most the stop buffer of 10 yields a Pending-level breach,
beyond 10 a Stop-level breach (soil-moisture max for watering/irrigation,
field max for weeding/land-prep/fertilization, temperature min/max for
every task type); any Stop-level breach forces Stop, otherwise any
Pending-level breach forces Pending with a Safe-Date proposal; in
particular soil moisture 36 against max 25 (delta 11 > 10) yields Stop
and soil moisture 30 (delta 5 ≤ 10) yields Pending with a computed
proposed date. -/
theorem threshold_rules_stop_buffer :
    (∀ ttype : String, ttype = "watering" ∨ ttype = "irrigation" →
      ∀ sm mmax : Flt, sm > mmax →
        ((sm - mmax ≤ stopBuffer →
          evalRules ttype (some sm) none (some mmax) none none none =
            { stopReasons := [],
              pendingReasons := [wateringPendingReason sm mmax] }) ∧
         (sm - mmax > stopBuffer →
          evalRules ttype (some sm) none (some mmax) none none none =
            { stopReasons := [wateringStopReason sm mmax (sm - mmax)],
              pendingReasons := [] }))) ∧
    (∀ ttype : String,
      ttype = "weeding" ∨ ttype = "land-prep" ∨ ttype = "fertilization" →
      ∀ sm mfmax : Flt, sm > mfmax →
        ((sm - mfmax ≤ stopBuffer →
          evalRules ttype (some sm) none none (some mfmax) none none =
            { stopReasons := [],
              pendingReasons := [fieldPendingReason sm mfmax] }) ∧
         (sm - mfmax > stopBuffer →
          evalRules ttype (some sm) none none (some mfmax) none none =
            { stopReasons := [fieldStopReason sm mfmax (sm - mfmax)],
              pendingReasons := [] }))) ∧
    (∀ (ttype : String) (tv tmax : Flt), tv > tmax →
        ((tv - tmax ≤ stopBuffer →
          evalRules ttype none (some tv) none none none (some tmax) =
            { stopReasons := [],
              pendingReasons := [tempMaxPendingReason tv tmax] }) ∧
         (tv - tmax > stopBuffer →
          evalRules ttype none (some tv) none none none (some tmax) =
            { stopReasons := [tempMaxStopReason tv tmax (tv - tmax)],
              pendingReasons := [] }))) ∧
    (∀ (ttype : String) (tv tmin : Flt), tv < tmin →
        ((tmin - tv ≤ stopBuffer →
          evalRules ttype none (some tv) none none (some tmin) none =
            { stopReasons := [],
              pendingReasons := [tempMinPendingReason tv tmin] }) ∧
         (tmin - tv > stopBuffer →
          evalRules ttype none (some tv) none none (some tmin) none =
            { stopReasons := [tempMinStopReason tv tmin (tmin - tv)],
              pendingReasons := [] }))) ∧
    (∀ (o : RuleOutcome) (target rd : Int) (cal : RainCal) (rmin rheavy : Flt)
        (title : String),
        (o.stopReasons ≠ [] →
          (ruleDecision target rd cal rmin rheavy title o).1 = "Stop") ∧
        (o.stopReasons = [] → o.pendingReasons ≠ [] →
          (ruleDecision target rd cal rmin rheavy title o).1 = "Pending" ∧
          (ruleDecision target rd cal rmin rheavy title o).2.2 =
            some ((findNextSafeDate target rd MAX_LOOKAHEAD_DAYS cal rmin rheavy
              title).1))) ∧
    ((36 : Flt) - 25 > stopBuffer ∧
      (ruleDecision 3 2 [] 2 10 "Watering session"
        (evalRules "watering" (some 36) none (some 25) none none none)).1 = "Stop") ∧
    ((30 : Flt) - 25 ≤ stopBuffer ∧
      (ruleDecision 3 2 [] 2 10 "Watering session"
        (evalRules "watering" (some 30) none (some 25) none none none)).1 =
        "Pending" ∧
      (ruleDecision 3 2 [] 2 10 "Watering session"
        (evalRules "watering" (some 30) none (some 25) none none none)).2.2 =
        some ((findNextSafeDate 3 2 MAX_LOOKAHEAD_DAYS [] 2 10
          "Watering session").1)) := by
  refine ⟨?_, ?_, ?_, ?_, ?_, by decide, by decide⟩
  · intro ttype ht sm mmax h
    constructor
    · intro h2
      have hb : ¬ (sm - mmax > stopBuffer) := Flt.not_lt.mpr h2
      unfold evalRules
      rw [moistureMaxBlock_pending ttype ht sm mmax h hb,
        fieldMoistureBlock_none_threshold, tempMaxBlock_none_reading,
        tempMinBlock_none_reading]
      rfl
    · intro h2
      unfold evalRules
      rw [moistureMaxBlock_stop ttype ht sm mmax h h2,
        fieldMoistureBlock_none_threshold, tempMaxBlock_none_reading,
        tempMinBlock_none_reading]
      rfl
  · intro ttype ht sm mfmax h
    constructor
    · intro h2
      have hb : ¬ (sm - mfmax > stopBuffer) := Flt.not_lt.mpr h2
      unfold evalRules
      rw [moistureMaxBlock_none_threshold,
        fieldMoistureBlock_pending ttype ht sm mfmax h hb,
        tempMaxBlock_none_reading, tempMinBlock_none_reading]
      rfl
    · intro h2
      unfold evalRules
      rw [moistureMaxBlock_none_threshold,
        fieldMoistureBlock_stop ttype ht sm mfmax h h2,
        tempMaxBlock_none_reading, tempMinBlock_none_reading]
      rfl
  · intro ttype tv tmax h
    constructor
    · intro h2
      have hb : ¬ (tv - tmax > stopBuffer) := Flt.not_lt.mpr h2
      unfold evalRules
      rw [moistureMaxBlock_none_reading, fieldMoistureBlock_none_reading,
        tempMaxBlock_pending tv tmax h hb, tempMinBlock_none_threshold]
      rfl
    · intro h2
      unfold evalRules
      rw [moistureMaxBlock_none_reading, fieldMoistureBlock_none_reading,
        tempMaxBlock_stop tv tmax h h2, tempMinBlock_none_threshold]
      rfl
  · intro ttype tv tmin h
    constructor
    · intro h2
      have hb : ¬ (tmin - tv > stopBuffer) := Flt.not_lt.mpr h2
      unfold evalRules
      rw [moistureMaxBlock_none_reading, fieldMoistureBlock_none_reading,
        tempMaxBlock_none_threshold, tempMinBlock_pending tv tmin h hb]
      rfl
    · intro h2
      unfold evalRules
      rw [moistureMaxBlock_none_reading, fieldMoistureBlock_none_reading,
        tempMaxBlock_none_threshold, tempMinBlock_stop tv tmin h h2]
      rfl
  · intro o target rd cal rmin rheavy title
    constructor
    · intro h
      unfold ruleDecision
      rw [if_pos h]
    · intro h h2
      unfold ruleDecision
      rw [if_neg (by simp [h]), if_pos h2]
      exact ⟨rfl, rfl⟩

/-- C2 (witness): the rule classification at concrete values. -/
theorem threshold_rules_stop_buffer_witness :
    evalRules "watering" (some 30) none (some 25) none none none =
      { stopReasons := [], pendingReasons := [wateringPendingReason 30 25] } ∧
    evalRules "fertilization" (some 40) none none (some 25) none none =
      { stopReasons := [fieldStopReason 40 25 (40 - 25)], pendingReasons := [] } ∧
    evalRules "inspection" none (some 32) none none none (some 30) =
      { stopReasons := [], pendingReasons := [tempMaxPendingReason 32 30] } ∧
    evalRules "inspection" none (some 5) none none (some 22) none =
      { stopReasons := [tempMinStopReason 5 22 (22 - 5)], pendingReasons := [] } ∧
    (ruleDecision 3 2 [] 2 10 "w"
      { stopReasons := ["s"], pendingReasons := [] }).1 = "Stop" ∧
    (ruleDecision 3 2 [] 2 10 "w"
      { stopReasons := [], pendingReasons := ["p"] }).1 = "Pending" := by
  refine ⟨?_, ?_, ?_, ?_, ?_, ?_⟩
  · exact (threshold_rules_stop_buffer.1 "watering" (Or.inl rfl) 30 25
      (by decide)).1 (by decide)
  · exact (threshold_rules_stop_buffer.2.1 "fertilization"
      (Or.inr (Or.inr rfl)) 40 25 (by decide)).2 (by decide)
  · exact (threshold_rules_stop_buffer.2.2.1 "inspection" 32 30 (by decide)).1
      (by decide)
  · exact (threshold_rules_stop_buffer.2.2.2.1 "inspection" 5 22 (by decide)).2
      (by decide)
  · exact (threshold_rules_stop_buffer.2.2.2.2.1
      { stopReasons := ["s"], pendingReasons := [] } 3 2 [] 2 10 "w").1 (by decide)
  · exact ((threshold_rules_stop_buffer.2.2.2.2.1
      { stopReasons := [], pendingReasons := ["p"] } 3 2 [] 2 10 "w").2 rfl
      (by decide)).1

/-! ## Idempotence of the Threshold Evaluator (C6) -/

theorem applyThresholdUpdate_preserves (d : Int)
    (r : String × Option String × Option Int) (t : Task) :
    (applyThresholdUpdate d r t).id = t.id ∧
    (applyThresholdUpdate d r t).plot_id = t.plot_id ∧
    (applyThresholdUpdate d r t).title = t.title ∧
    (applyThresholdUpdate d r t).ttype = t.ttype ∧
    (applyThresholdUpdate d r t).task_date = t.task_date ∧
    (applyThresholdUpdate d r t).buffer_days = t.buffer_days := by
  unfold applyThresholdUpdate
  cases r.2.2 <;> exact ⟨rfl, rfl, rfl, rfl, rfl, rfl⟩

theorem applyThresholdUpdate_triple (d : Int)
    (r : String × Option String × Option Int) (t : Task) :
    (applyThresholdUpdate d r t).status = some r.1 ∧
    (applyThresholdUpdate d r t).reason = r.2.1 ∧
    (applyThresholdUpdate d r t).proposed_date = r.2.2 := by
  unfold applyThresholdUpdate
  cases r.2.2 <;> exact ⟨rfl, rfl, rfl⟩

theorem foldUpdates_preserves (d : Int)
    (ups : List (String × (String × Option String × Option Int))) (t : Task) :
    (ups.foldl (applyOneUpdate d) t).id = t.id ∧
    (ups.foldl (applyOneUpdate d) t).plot_id = t.plot_id ∧
    (ups.foldl (applyOneUpdate d) t).title = t.title ∧
    (ups.foldl (applyOneUpdate d) t).ttype = t.ttype ∧
    (ups.foldl (applyOneUpdate d) t).task_date = t.task_date ∧
    (ups.foldl (applyOneUpdate d) t).buffer_days = t.buffer_days := by
  induction ups generalizing t with
  | nil => exact ⟨rfl, rfl, rfl, rfl, rfl, rfl⟩
  | cons u us ih =>
    rw [List.foldl_cons]
    unfold applyOneUpdate
    by_cases hid : t.id = u.1
    · rw [if_pos hid]
      have h1 := applyThresholdUpdate_preserves d u.2 t
      have h2 := ih (applyThresholdUpdate d u.2 t)
      exact ⟨h2.1.trans h1.1, h2.2.1.trans h1.2.1, h2.2.2.1.trans h1.2.2.1,
        h2.2.2.2.1.trans h1.2.2.2.1, h2.2.2.2.2.1.trans h1.2.2.2.2.1,
        h2.2.2.2.2.2.trans h1.2.2.2.2.2⟩
    · rw [if_neg hid]
      exact ih t

theorem selectedForEval_fold (env : EvalEnv) (d : Int)
    (ups : List (String × (String × Option String × Option Int))) (t : Task) :
    selectedForEval env (ups.foldl (applyOneUpdate d) t) = selectedForEval env t := by
  have h := foldUpdates_preserves d ups t
  unfold selectedForEval
  rw [h.2.1, h.2.2.2.2.1]

theorem foldUpdates_not_mem (d : Int)
    (ups : List (String × (String × Option String × Option Int))) (t : Task)
    (h : ∀ u ∈ ups, u.1 ≠ t.id) :
    ups.foldl (applyOneUpdate d) t = t := by
  induction ups with
  | nil => rfl
  | cons u us ih =>
    rw [List.foldl_cons]
    unfold applyOneUpdate
    rw [if_neg (fun he => h u (List.mem_cons_self u us) he.symm)]
    exact ih (fun u' hu' => h u' (List.mem_cons_of_mem u hu'))

theorem foldUpdates_mem (d : Int)
    (ups : List (String × (String × Option String × Option Int))) (t : Task)
    (r : String × Option String × Option Int)
    (hnd : (ups.map Prod.fst).Nodup) (hmem : (t.id, r) ∈ ups) :
    ups.foldl (applyOneUpdate d) t = applyThresholdUpdate d r t := by
  induction ups with
  | nil => exact absurd hmem (List.not_mem_nil _)
  | cons u us ih =>
    rw [List.map_cons, List.nodup_cons] at hnd
    rw [List.foldl_cons]
    unfold applyOneUpdate
    rcases List.mem_cons.mp hmem with heq | hin
    · rw [← heq, if_pos rfl]
      apply foldUpdates_not_mem
      intro u' hu' he
      have hid : (applyThresholdUpdate d (t.id, r).2 t).id = t.id :=
        (applyThresholdUpdate_preserves d (t.id, r).2 t).1
      rw [hid] at he
      apply hnd.1
      rw [← heq]
      have hm : u'.1 ∈ List.map Prod.fst us := List.mem_map_of_mem Prod.fst hu'
      rw [he] at hm
      exact hm
    · have hne : t.id ≠ u.1 := by
        intro he
        apply hnd.1
        rw [he] at hin
        have hm : ((u.1, r) : String × (String × Option String × Option Int)).1 ∈
            List.map Prod.fst us := List.mem_map_of_mem Prod.fst hin
        exact hm
      rw [if_neg hne]
      exact ih hnd.2 hin

theorem fetch_map_fold (store : List Task) (d : Int)
    (ups : List (String × (String × Option String × Option Int)))
    (p : String) (lo hi : Int) :
    fetchPlotTasksForConflictCheck
        (store.map (fun t => ups.foldl (applyOneUpdate d) t)) p lo hi =
      (fetchPlotTasksForConflictCheck store p lo hi).map
        (fun t => ups.foldl (applyOneUpdate d) t) := by
  unfold fetchPlotTasksForConflictCheck
  rw [List.filter_map]
  congr 1
  apply List.filter_congr
  intro t _
  have h := foldUpdates_preserves d ups t
  simp only [Function.comp_apply]
  rw [h.2.1, h.2.2.2.2.1]

theorem cutoff_fold_append (d : Int)
    (ups : List (String × (String × Option String × Option Int)))
    (l rest : List Task) :
    getProcessingCutoffDate
        (l.map (fun t => ups.foldl (applyOneUpdate d) t) ++ rest) =
      getProcessingCutoffDate (l ++ rest) := by
  unfold getProcessingCutoffDate
  dsimp only
  rw [List.filterMap_append, List.filterMap_append, List.filterMap_map]
  refine congrArg (List.foldl _ none) ?_
  congr 1
  apply List.filterMap_congr
  intro t _
  have h := foldUpdates_preserves d ups t
  simp only [Function.comp_apply]
  unfold isProcessingCutoffTask
  rw [h.2.2.1, h.2.2.2.2.1]

theorem windows_fold_append (d : Int)
    (ups : List (String × (String × Option String × Option Int)))
    (l rest : List Task) :
    buildHormoneWindows
        (l.map (fun t => ups.foldl (applyOneUpdate d) t) ++ rest) =
      buildHormoneWindows (l ++ rest) := by
  unfold buildHormoneWindows
  dsimp only
  rw [cutoff_fold_append]
  rw [List.filterMap_append, List.filterMap_append, List.filterMap_map]
  congr 1
  apply List.filterMap_congr
  intro t _
  have h := foldUpdates_preserves d ups t
  simp only [Function.comp_apply]
  unfold isHormoneTask getBufferDays
  rw [h.2.2.1, h.2.2.2.1, h.2.2.2.2.1, h.2.2.2.2.2]

theorem adjust_fold (store : List Task) (d : Int)
    (ups : List (String × (String × Option String × Option Int)))
    (p : String) (task : Task) (pd : Option Int) :
    adjustProposedDateForConflict
        (store.map (fun t => ups.foldl (applyOneUpdate d) t)) p task pd =
      adjustProposedDateForConflict store p task pd := by
  unfold adjustProposedDateForConflict
  cases pd with
  | none => rfl
  | some cand =>
    cases hf : isFertiliserTask task with
    | false => simp only [hf, Bool.not_false, if_true]
    | true =>
      simp only [hf, Bool.not_true, Bool.false_eq_true, if_false]
      unfold applyFertiliserConflictResolution
      rw [fetch_map_fold, windows_fold_append, cutoff_fold_append]

theorem pipeline_fold (store : List Task) (d : Int)
    (ups : List (String × (String × Option String × Option Int)))
    (env : EvalEnv) (t : Task) :
    evalTaskPipeline (store.map (fun t => ups.foldl (applyOneUpdate d) t)) env t =
      evalTaskPipeline store env t := by
  unfold evalTaskPipeline adjustStage
  dsimp only
  rw [adjust_fold]

theorem pipeline_task_fields (store : List Task) (env : EvalEnv) (t1 t2 : Task)
    (h1 : t1.title = t2.title) (h2 : t1.ttype = t2.ttype) :
    evalTaskPipeline store env t1 = evalTaskPipeline store env t2 := by
  unfold evalTaskPipeline aiStage adjustStage ruleStage
  rw [h1, h2]

theorem stripStr_status_literal (s : String)
    (h : s = "Proceed" ∨ s = "Pending" ∨ s = "Stop") : stripStr s = s := by
  rcases h with h | h | h <;> rw [h] <;> decide

theorem shouldUpdate_after_update (d : Int)
    (r : String × Option String × Option Int) (t : Task)
    (h : r.1 = "Proceed" ∨ r.1 = "Pending" ∨ r.1 = "Stop") :
    shouldUpdate (applyThresholdUpdate d r t) r = false := by
  have htr := applyThresholdUpdate_triple d r t
  unfold shouldUpdate previousStatus
  rw [htr.1, htr.2.1, htr.2.2]
  simp [stripStr_status_literal r.1 h]

theorem ruleDecision_status_mem (target rd : Int) (cal : RainCal)
    (rmin rheavy : Flt) (title : String) (o : RuleOutcome) :
    (ruleDecision target rd cal rmin rheavy title o).1 = "Proceed" ∨
    (ruleDecision target rd cal rmin rheavy title o).1 = "Pending" ∨
    (ruleDecision target rd cal rmin rheavy title o).1 = "Stop" := by
  unfold ruleDecision
  split
  · exact Or.inr (Or.inr rfl)
  · split
    · exact Or.inr (Or.inl rfl)
    · exact Or.inl rfl

theorem ruleStage_status_mem (env : EvalEnv) (t : Task) :
    (ruleStage env t).1 = "Proceed" ∨ (ruleStage env t).1 = "Pending" ∨
    (ruleStage env t).1 = "Stop" := by
  unfold ruleStage
  exact ruleDecision_status_mem _ _ _ _ _ _ _

theorem aiGate_status_mem (s : String) (r : Option String) (l : String) (c : Flt)
    (h : s = "Proceed" ∨ s = "Pending" ∨ s = "Stop") :
    (aiGate s r l c).1 = "Proceed" ∨ (aiGate s r l c).1 = "Pending" ∨
    (aiGate s r l c).1 = "Stop" := by
  rcases h with h | h | h <;> subst h <;> unfold aiGate
  · rw [if_pos rfl]
    split
    · exact Or.inr (Or.inl rfl)
    · split
      · exact Or.inr (Or.inr rfl)
      · exact Or.inl rfl
  · rw [if_neg (by decide), if_pos rfl]
    split
    · exact Or.inr (Or.inr rfl)
    · exact Or.inr (Or.inl rfl)
  · rw [if_neg (by decide), if_neg (by decide)]
    exact Or.inr (Or.inr rfl)

theorem adjustStage_status_mem (store : List Task) (env : EvalEnv) (t : Task)
    (d0 : String × String × Option Int)
    (h : d0.1 = "Proceed" ∨ d0.1 = "Pending" ∨ d0.1 = "Stop") :
    (adjustStage store env t d0).2.2 = "Proceed" ∨
    (adjustStage store env t d0).2.2 = "Pending" ∨
    (adjustStage store env t d0).2.2 = "Stop" := by
  unfold adjustStage
  by_cases hc : d0.1 = "Pending" ∧ d0.2.2 ≠ none
  · rw [if_pos hc]
    dsimp only
    have ha := adjust_keeps_pending store env.plot_id
      { plot_id := env.plot_id, title := t.title, ttype := t.ttype,
        status := some d0.1, reason := some d0.2.1 } d0.2.2
      (by show some d0.1 = some "Pending"; rw [hc.1])
    rw [ha]
    exact Or.inr (Or.inl rfl)
  · rw [if_neg hc]
    exact h

theorem evalTaskPipeline_status_mem (store : List Task) (env : EvalEnv) (t : Task) :
    (evalTaskPipeline store env t).1 = "Proceed" ∨
    (evalTaskPipeline store env t).1 = "Pending" ∨
    (evalTaskPipeline store env t).1 = "Stop" := by
  unfold evalTaskPipeline aiStage
  exact aiGate_status_mem _ _ _ _
    (adjustStage_status_mem store env t (ruleStage env t) (ruleStage_status_mem env t))

theorem collectUpdate_some_fst (store : List Task) (env : EvalEnv) (t : Task)
    (u : String × (String × Option String × Option Int))
    (h : collectUpdate store env t = some u) :
    u.1 = t.id ∧ u.2 = evalTaskPipeline store env t ∧
      shouldUpdate t (evalTaskPipeline store env t) = true := by
  unfold collectUpdate at h
  dsimp only at h
  cases hs : shouldUpdate t (evalTaskPipeline store env t) with
  | false => rw [hs] at h; exact absurd h (by simp)
  | true =>
    rw [hs] at h
    simp only [if_true, Option.some.injEq] at h
    rw [← h]
    exact ⟨rfl, rfl, rfl⟩

theorem collectUpdate_eq_none (store : List Task) (env : EvalEnv) (t : Task)
    (h : shouldUpdate t (evalTaskPipeline store env t) = false) :
    collectUpdate store env t = none := by
  unfold collectUpdate
  dsimp only
  rw [h]
  rfl

theorem collectUpdate_eq_some (store : List Task) (env : EvalEnv) (t : Task)
    (h : shouldUpdate t (evalTaskPipeline store env t) = true) :
    collectUpdate store env t = some (t.id, evalTaskPipeline store env t) := by
  unfold collectUpdate
  dsimp only
  rw [h]
  rfl

theorem collect_ids_sublist (store : List Task) (env : EvalEnv) (tasks : List Task) :
    List.Sublist ((tasks.filterMap (collectUpdate store env)).map Prod.fst)
      (tasks.map Task.id) := by
  induction tasks with
  | nil => exact List.Sublist.refl _
  | cons t ts ih =>
    rw [List.filterMap_cons, List.map_cons]
    cases hc : collectUpdate store env t with
    | none => exact ih.cons t.id
    | some u =>
      rw [List.map_cons, (collectUpdate_some_fst store env t u hc).1]
      exact ih.cons₂ t.id

theorem filterMap_guard_length {α β : Type} (c : α → Bool) (g : α → β) (l : List α) :
    (l.filterMap (fun a => if c a then some (g a) else none)).length =
      (l.filter c).length := by
  induction l with
  | nil => rfl
  | cons a as ih =>
    rw [List.filterMap_cons, List.filter_cons]
    cases hc : c a with
    | false => simpa using ih
    | true =>
      simp only [if_true, List.length_cons]
      rw [ih]

/-- C6: re-running the Threshold Evaluator on the store it just produced,
with the same readings, thresholds, weather calendar and predictor,
persists zero task updates; and a pass writes exactly one update per
selected task whose computed status, reason or proposed date differs from
the stored values (given usable readings).  Task ids are assumed unique,
as in the backing table. -/
theorem evaluator_idempotent_and_update_iff :
    ∀ (store : List Task) (env : EvalEnv), (store.map Task.id).Nodup →
      (runEvaluator (runEvaluator store env).1 env).2 = 0 ∧
      (¬ (env.temperature = none ∧ env.soil_moisture = none) →
        (runEvaluator store env).2 =
          ((store.filter (selectedForEval env)).filter
            (fun t => shouldUpdate t (evalTaskPipeline store env t))).length) := by
  intro store env hnd
  by_cases htasks : store.filter (selectedForEval env) = []
  · have h1 : runEvaluator store env = (store, 0) := by
      unfold runEvaluator
      dsimp only
      rw [if_pos htasks]
    refine ⟨?_, ?_⟩
    · rw [h1]
      unfold runEvaluator
      dsimp only
      rw [if_pos htasks]
    · intro _
      rw [h1, htasks]
      rfl
  · by_cases hread : env.temperature = none ∧ env.soil_moisture = none
    · have h1 : runEvaluator store env = (store, 0) := by
        unfold runEvaluator
        dsimp only
        rw [if_neg htasks, if_pos hread]
      refine ⟨?_, fun hc => absurd hread hc⟩
      rw [h1]
      unfold runEvaluator
      dsimp only
      rw [if_neg htasks, if_pos hread]
    · have hndtasks : ((store.filter (selectedForEval env)).map Task.id).Nodup :=
        hnd.sublist ((List.filter_sublist store).map Task.id)
      have hndups : (((store.filter (selectedForEval env)).filterMap
          (collectUpdate store env)).map Prod.fst).Nodup :=
        hndtasks.sublist (collect_ids_sublist store env _)
      have h1 : (runEvaluator store env).1 =
          store.map (fun t =>
            ((store.filter (selectedForEval env)).filterMap
              (collectUpdate store env)).foldl (applyOneUpdate env.target_date) t) := by
        unfold runEvaluator
        dsimp only
        rw [if_neg htasks, if_neg hread]
      have h2 : (runEvaluator store env).2 =
          ((store.filter (selectedForEval env)).filterMap
            (collectUpdate store env)).length := by
        unfold runEvaluator
        dsimp only
        rw [if_neg htasks, if_neg hread]
      refine ⟨?_, ?_⟩
      · rw [h1]
        have hsel : (store.map (fun t =>
            ((store.filter (selectedForEval env)).filterMap
              (collectUpdate store env)).foldl (applyOneUpdate env.target_date) t)).filter
              (selectedForEval env) =
            (store.filter (selectedForEval env)).map (fun t =>
              ((store.filter (selectedForEval env)).filterMap
                (collectUpdate store env)).foldl (applyOneUpdate env.target_date) t) := by
          rw [List.filter_map]
          congr 1
          apply List.filter_congr
          intro t _
          simp only [Function.comp_apply]
          exact selectedForEval_fold env env.target_date _ t
        have htasks1 : (store.map (fun t =>
            ((store.filter (selectedForEval env)).filterMap
              (collectUpdate store env)).foldl (applyOneUpdate env.target_date) t)).filter
              (selectedForEval env) ≠ [] := by
          rw [hsel]
          intro he
          exact htasks (List.map_eq_nil_iff.mp he)
        unfold runEvaluator
        dsimp only
        rw [if_neg htasks1, if_neg hread, hsel]
        rw [List.length_eq_zero, List.filterMap_eq_nil_iff]
        intro t1 ht1
        obtain ⟨t, htmem, rfl⟩ := List.mem_map.mp ht1
        have hpres := foldUpdates_preserves env.target_date
          ((store.filter (selectedForEval env)).filterMap (collectUpdate store env)) t
        have hpipe : evalTaskPipeline
            (store.map (fun t =>
              ((store.filter (selectedForEval env)).filterMap
                (collectUpdate store env)).foldl (applyOneUpdate env.target_date) t)) env
            (((store.filter (selectedForEval env)).filterMap
              (collectUpdate store env)).foldl (applyOneUpdate env.target_date) t) =
            evalTaskPipeline store env t := by
          rw [pipeline_fold]
          exact pipeline_task_fields store env _ t hpres.2.2.1 hpres.2.2.2.1
        apply collectUpdate_eq_none
        rw [hpipe]
        cases hupd : shouldUpdate t (evalTaskPipeline store env t) with
        | true =>
          have hmem : (t.id, evalTaskPipeline store env t) ∈
              (store.filter (selectedForEval env)).filterMap (collectUpdate store env) :=
            List.mem_filterMap.mpr ⟨t, htmem, collectUpdate_eq_some store env t hupd⟩
          have hu := foldUpdates_mem env.target_date
            ((store.filter (selectedForEval env)).filterMap (collectUpdate store env))
            t (evalTaskPipeline store env t) hndups hmem
          rw [hu]
          exact shouldUpdate_after_update env.target_date _ t
            (evalTaskPipeline_status_mem store env t)
        | false =>
          have hnotin : ∀ u' ∈ (store.filter (selectedForEval env)).filterMap
              (collectUpdate store env), u'.1 ≠ t.id := by
            intro u' hu' he
            obtain ⟨t', ht'mem, hcoll⟩ := List.mem_filterMap.mp hu'
            obtain ⟨hfst, _, hs'⟩ := collectUpdate_some_fst store env t' u' hcoll
            have ht't : t' = t :=
              List.inj_on_of_nodup_map hndtasks ht'mem htmem (hfst ▸ he)
            rw [ht't] at hs'
            rw [hs'] at hupd
            exact Bool.noConfusion hupd
          have hu := foldUpdates_not_mem env.target_date
            ((store.filter (selectedForEval env)).filterMap (collectUpdate store env))
            t hnotin
          rw [hu]
          exact hupd
      · intro _
        rw [h2]
        exact filterMap_guard_length
          (fun t => shouldUpdate t (evalTaskPipeline store env t))
          (fun t => (t.id, evalTaskPipeline store env t)) _

/-- C6 (witness): the idempotence theorem at a concrete store and
environment (one watering task with a soft breach; the first run writes
one update, the second none). -/
theorem evaluator_idempotent_witness :
    (runEvaluator (runEvaluator [proceedWateringTask] softBreachEnv).1 softBreachEnv).2 = 0 ∧
    (runEvaluator [proceedWateringTask] softBreachEnv).2 = 1 := by
  have h := evaluator_idempotent_and_update_iff [proceedWateringTask] softBreachEnv
    (by decide)
  refine ⟨h.1, ?_⟩
  have h2 := h.2 (by intro hc; exact Option.noConfusion (hc.1))
  rw [h2]
  decide

end PineTrack
